import Mathlib

/-!
Verification of the VM Resource Lifecycle Controller (KVM/GCP VM manager).

The Python sources are shallowly embedded:
* pure helpers (size parsing, human-readable formatting, target allocation)
  become Lean functions; Python floats are modelled by exact non-negative
  rationals (`PosRat`, a numerator/denominator pair of naturals) — every
  numeric value appearing in the verified statements is exactly
  representable in binary floating point, so the models agree;
* effectful methods become functions from an oracle environment `Env`
  (responses of the hypervisor, the filesystem and the interactive user)
  to a result paired with a trace of backend actions (`Act`);
* time-varying observations (VM state while polling, IP population,
  repeated inventory listings) are oracles indexed by poll count,
  respectively by the number of inventory listings made so far, which is
  threaded through the functions as a counter `k`;
* the unbounded polling loop of the cloud controller is embedded with an
  explicit fuel parameter and returns `none` while still looping.
-/

namespace K2G

/-- Backend actions recorded while an operation runs.  Shell commands,
file writes/removals and playbook runs are recorded with their payloads;
log and console messages are recorded because several behaviours are
reported through them; progress `print` calls are omitted. -/
inductive Act where
  | runCmd (cmd : String)
  | apiCall (desc : String)
  | fileWrite (path : String)
  | fileRemove (path : String)
  | ansible (ip : String) (vm : String) (playbook : String) (vars : List (String × String))
  | sleep (secs : Nat)
  | logError (msg : String)
  | logInfo (msg : String)
  | display (msg : String)
  deriving Repr, DecidableEq

/-- Shell commands that only query state (`virsh list/dominfo/domblklist/
domblkinfo/guestinfo/dumpxml`).  Everything else run through the shell
mutates the backend. -/
def readOnlyCmdStarts : List String :=
  ["virsh list", "virsh dominfo", "virsh domblklist", "virsh domblkinfo",
   "virsh guestinfo", "virsh dumpxml"]

/-- `p` is a prefix of `s` (character-wise). -/
def strStarts (p s : String) : Bool := p.data.isPrefixOf s.data

/-- Whether an action mutates the backend (hypervisor state or files). -/
def Act.isBackendMutation : Act → Bool
  | .runCmd c => !(readOnlyCmdStarts.any (fun p => strStarts p c))
  | .apiCall _ => false
  | .fileWrite _ => true
  | .fileRemove _ => true
  | .ansible _ _ _ _ => true
  | .sleep _ => false
  | .logError _ => false
  | .logInfo _ => false
  | .display _ => false

/-- A trace performs no backend mutation. -/
def noMutation (tr : List Act) : Prop := ∀ a ∈ tr, a.isBackendMutation = false

instance (tr : List Act) : Decidable (noMutation tr) := by
  unfold noMutation; infer_instance

/-! ## Exact non-negative rationals

The Python code computes sizes with floats.  All float values reached in
the verified statements are exact in binary floating point, and the
operations used (multiplication/division by powers of two, comparison,
integrality test, fixed-point rounding of exact values) are exact, so an
exact fraction of naturals is a faithful model. -/

structure PosRat where
  num : Nat
  den : Nat
  deriving Repr, DecidableEq

namespace PosRat

def ofNat (n : Nat) : PosRat := ⟨n, 1⟩

def mul (a b : PosRat) : PosRat := ⟨a.num * b.num, a.den * b.den⟩

def div (a b : PosRat) : PosRat := ⟨a.num * b.den, a.den * b.num⟩

/-- `a ≤ b` by cross multiplication (denominators are positive in use). -/
def le (a b : PosRat) : Bool := decide (a.num * b.den ≤ b.num * a.den)

/-- Numeric equality (Python `==` between numbers). -/
def eqv (a b : PosRat) : Bool := decide (a.num * b.den = b.num * a.den)

/-- Python `float.is_integer`. -/
def isInt (a : PosRat) : Bool := decide (a.num % a.den = 0)

/-- Python `int(x)` for a non-negative value (truncation = floor). -/
def floorNat (a : PosRat) : Nat := a.num / a.den

end PosRat

/-! ## Size arithmetic (`__split_size_suffix`, `__convert_size_to_bytes`) -/

/-- Python `str.lower()` (character-wise, as for the ASCII strings used
here). -/
def lowerStr (s : String) : String := String.mk (s.data.map Char.toLower)

/-- Python `str.replace(c, '')`: drop every occurrence of a character. -/
def dropCharStr (s : String) (c : Char) : String :=
  String.mk (s.data.filter (fun d => decide (d ≠ c)))

/-- Numeric value of a list of decimal digit characters. -/
def natOfDigits (ds : List Char) : Nat :=
  ds.foldl (fun acc c => acc * 10 + (c.toNat - '0'.toNat)) 0

/-- Python `float(''.join(chars))` on a list consisting of decimal digits
and at most one dot: defined iff at least one digit is present. -/
def pyFloatOfDigitChars (ds : List Char) : Option PosRat :=
  if ds.any Char.isDigit then
    let intPart := ds.takeWhile (fun c => decide (c ≠ '.'))
    let fracPart := (ds.dropWhile (fun c => decide (c ≠ '.'))).drop 1
    some ⟨natOfDigits intPart * 10 ^ fracPart.length + natOfDigits fracPart, 10 ^ fracPart.length⟩
  else none

/-- `KVMController.__split_size_suffix`: scan the string, collecting digit
characters (and the first `.`) and alphabetic characters; parse the numeric
part, lowercase the suffix; on a parse failure return `(0, "")`. -/
def splitSizeSuffix (size : String) : PosRat × String :=
  let step := fun (st : List Char × List Char × Bool) (c : Char) =>
    let (digit, suffix, decimalFound) := st
    if c.isDigit ∨ (c = '.' ∧ ¬decimalFound) then
      (digit ++ [c], suffix, decimalFound ∨ c = '.')
    else if c.isAlpha then (digit, suffix ++ [c], decimalFound)
    else st
  let r := size.data.foldl step ([], [], false)
  match pyFloatOfDigitChars r.1 with
  | some q => (q, lowerStr (String.mk r.2.1))
  | none => (.ofNat 0, "")

/-- Python `str.isdigit`: non-empty and all digits. -/
def pyStrIsDigit (s : String) : Bool := !s.isEmpty && s.data.all Char.isDigit

/-- The size suffixes accepted by `__convert_size_to_bytes`, by scale. -/
def suffixesT : List String := ["t", "tb", "tib"]
def suffixesG : List String := ["g", "gb", "gib"]
def suffixesM : List String := ["m", "mb", "mib"]
def suffixesK : List String := ["k", "kb", "kib"]

/-- `KVMController.__convert_size_to_bytes` on a string argument: all-digit
strings parse as-is; otherwise split off the (lowercased) suffix and scale
by the matching power of 1024; an unknown suffix yields 0 (the failure
value; the method never throws). -/
def convertSizeToBytes (size : String) : Int :=
  if pyStrIsDigit size then (natOfDigits size.data : Int)
  else
    let r := splitSizeSuffix size
    if r.2 ∈ suffixesT then ((r.1.mul (.ofNat (1024 ^ 4))).floorNat : Int)
    else if r.2 ∈ suffixesG then ((r.1.mul (.ofNat (1024 ^ 3))).floorNat : Int)
    else if r.2 ∈ suffixesM then ((r.1.mul (.ofNat (1024 ^ 2))).floorNat : Int)
    else if r.2 ∈ suffixesK then ((r.1.mul (.ofNat 1024)).floorNat : Int)
    else 0

/-! ## Human-readable formatting (`__bytes_to_human_readable`) -/

def humanSuffixes : List String := ["B", "KiB", "MiB", "GiB", "TiB", "PiB"]

/-- The `while num >= base and unit_index < len(suffixes) - 1` loop.  The
divisor is a parameter: the source always divides by `1024.0`, while the
specification describes dividing by `base`.  The fuel `5 - idx` is exact:
the guard `idx < 5` bounds the iteration count. -/
def humanLoopF (divisor base : PosRat) : PosRat → Nat → Nat → PosRat × Nat
  | num, idx, 0 => (num, idx)
  | num, idx, fuel + 1 =>
    if base.le num ∧ idx < 5 then humanLoopF divisor base (num.div divisor) (idx + 1) fuel
    else (num, idx)

/-- Zero-pad a natural in `[0, 999]` to three characters. -/
def pad3 (n : Nat) : String :=
  if n < 10 then s!"00{n}" else if n < 100 then s!"0{n}" else s!"{n}"

/-- Python `f"{num:.3f}"` for a non-negative value: scale by 1000 and
round to the nearest integer, ties to even (the rounding Python applies
to the exactly-represented values reached here). -/
def formatFixed3 (q : PosRat) : String :=
  let n1000 := q.num * 1000
  let fl := n1000 / q.den
  let rem := n1000 % q.den
  let m := if rem * 2 < q.den then fl
           else if rem * 2 > q.den then fl + 1
           else if fl % 2 = 0 then fl else fl + 1
  let ip := m / 1000
  let fp := m % 1000
  s!"{ip}.{pad3 fp}"

/-- `KVMController.__bytes_to_human_readable`: run the reduction loop
(dividing by 1024 regardless of `base`), pick the unit name (the binary
names, with the `i` dropped unless `base == 1024`), format integral
values without decimals and other values to 3 decimal places.  A start
index beyond the unit names raises in the source and falls back to
printing the input. -/
def bytesToHumanReadable (unit : PosRat) (unitIndex : Nat) (base : PosRat) : String :=
  let r := humanLoopF (.ofNat 1024) base unit unitIndex (5 - unitIndex)
  if r.2 < 6 then
    let suffix0 := humanSuffixes.getD r.2 ""
    let suffix := if base.eqv (.ofNat 1024) then suffix0 else dropCharStr suffix0 'i'
    if r.1.isInt then
      let ip := r.1.floorNat
      s!"{ip} {suffix}"
    else
      let body := formatFixed3 r.1
      s!"{body} {suffix}"
  else s!"{unit.num}/{unit.den}"

/-- Modelled from the spec: `to_human(bytes, start_unit, base)` as the
specification words it — "repeatedly divide by `base` while magnitude ≥
`base` and a larger unit name remains", with the same unit naming and
formatting rules as the implementation. -/
def bytesToHumanSpec (unit : PosRat) (unitIndex : Nat) (base : PosRat) : String :=
  let r := humanLoopF base base unit unitIndex (5 - unitIndex)
  if r.2 < 6 then
    let suffix0 := humanSuffixes.getD r.2 ""
    let suffix := if base.eqv (.ofNat 1024) then suffix0 else dropCharStr suffix0 'i'
    if r.1.isInt then
      let ip := r.1.floorNat
      s!"{ip} {suffix}"
    else
      let body := formatFixed3 r.1
      s!"{body} {suffix}"
  else s!"{unit.num}/{unit.den}"

/-! ## The hypervisor environment

Oracles for every query the controller makes.  `instancesAt` is indexed
by the number of `virsh list --all` listings made so far (threaded as a
counter `k`), the VM-state polls during a shutdown wait and the IP polls
during an init wait are indexed by the poll iteration. -/

structure Instances where
  running : List String
  stopped : List String
  paused : List String
  deriving Repr, DecidableEq

structure Env where
  instancesAt : Nat → Instances
  cmdOk : String → Bool
  stoppedAt : String → Nat → Bool
  stoppedAfterDestroyAt : String → Nat → Bool
  disks : String → List (String × String)
  ipOf : String → String
  ipInitAt : String → Nat → String
  isIPv4 : String → Bool
  userInput : String → String
  dirExists : String → Bool
  ansibleClientDirExists : String → Bool
  writeOk : String → Bool
  removeOk : String → Bool
  ansibleOk : String → String → String → List (String × String) → Bool
  vmDir : String
  ansibleClients : String
  genHex : String

/-- Split a character list on a separator, keeping empty segments
(Python `str.split(sep)` semantics for a one-character separator). -/
def splitCharAux (c : Char) : List Char → List Char → List (List Char)
  | [], cur => [cur.reverse]
  | ch :: rest, cur =>
    if ch = c then cur.reverse :: splitCharAux c rest []
    else splitCharAux c rest (ch :: cur)

/-- Python `path.split("/")[-1].split(".")[0]`: file basename without
extension. -/
def fileBase (path : String) : String :=
  let last := (splitCharAux '/' path.data []).getLastD []
  String.mk ((splitCharAux '.' last []).headD [])

/-- `Utils._run_cmd`ed `virsh list --all`, parsed by `get_instances`;
consumes one slot of the listing counter. -/
def getInstances (env : Env) (k : Nat) : Instances × Nat × List Act :=
  (env.instancesAt k, k + 1, [Act.runCmd "virsh list --all"])

/-- `KVMController.__instance_exists`. -/
def instanceExists (vmName : String) (vms : Instances) : Bool :=
  vms.running.contains vmName || vms.stopped.contains vmName || vms.paused.contains vmName

/-- `KVMController.get_vm_disks`: `virsh domblklist` plus one
`virsh domblkinfo` per disk line; result is the target → location table. -/
def getVmDisks (env : Env) (vm : String) : List (String × String) × List Act :=
  (env.disks vm,
   Act.runCmd s!"virsh domblklist {vm}"
     :: (env.disks vm).map (fun d => Act.runCmd s!"virsh domblkinfo {vm} {d.1}"))

/-- `KVMController.get_vm_ip_by_index` (default index), outside an init
wait: one `virsh guestinfo` query. -/
def getVmIpByIndex (env : Env) (vm : String) : String × List Act :=
  (env.ipOf vm, [Act.runCmd s!"virsh guestinfo {vm}"])

/-- `Utils.run_ansible_playbook`: records the playbook run (which also
creates the client inventory). -/
def runAnsiblePlaybook (env : Env) (ip vm playbook : String)
    (vars : List (String × String)) : Bool × List Act :=
  (env.ansibleOk ip vm playbook vars, [Act.ansible ip vm playbook vars])

/-! ## Shutdown machinery (`__wait_for_vm_shutdown`, `force_shutdown_vm`,
`shutdown_vm`) -/

/-- One `is_vm_stopped` check (a `virsh dominfo` query). -/
def dominfoAct (vm : String) : Act := Act.runCmd s!"virsh dominfo {vm}"

def destroyAct (vm : String) : Act := Act.runCmd s!"virsh destroy {vm}"

/-- The `while count < max_wait` polling loop of
`__wait_for_vm_shutdown`: at second `t` check `is_vm_stopped`; if not
stopped, sleep one second and continue.  The fuel is `max_wait - count`,
which the loop structure makes exact. -/
def waitShutdownLoop (stopped : Nat → Bool) (vm : String) (t : Nat) :
    Nat → Bool × List Act
  | 0 => (false, [])
  | fuel + 1 =>
    if stopped t then (true, [dominfoAct vm])
    else
      let r := waitShutdownLoop stopped vm (t + 1) fuel
      (r.1, dominfoAct vm :: Act.sleep 1 :: r.2)

/-- `KVMController.force_shutdown_vm`: `virsh destroy`, then a 10-second
non-escalating wait (`__wait_for_vm_shutdown(vm, 10, False)`). -/
def forceShutdownVm (env : Env) (vm : String) : Bool × List Act :=
  let pre := [Act.logInfo s!"Force shutting down VM {vm}", destroyAct vm]
  if env.cmdOk s!"virsh destroy {vm}" then
    let r := waitShutdownLoop (env.stoppedAfterDestroyAt vm) vm 0 10
    if r.1 then (true, pre ++ r.2)
    else (false, pre ++ r.2 ++ [Act.logError s!"Failed to shutdown VM {vm} after 10 seconds"])
  else (false, pre ++ [Act.logError s!"Failed to force shutdown VM {vm}"])

/-- `KVMController.__wait_for_vm_shutdown` with `force_shutdown=True`
(the form `shutdown_vm` uses): poll up to `maxWait` seconds, then
escalate once to `force_shutdown_vm`. -/
def waitForVmShutdownForce (env : Env) (vm : String) (maxWait : Nat) : Bool × List Act :=
  let r := waitShutdownLoop (env.stoppedAt vm) vm 0 maxWait
  if r.1 then r
  else
    let f := forceShutdownVm env vm
    (f.1, r.2 ++ Act.logInfo s!"VM {vm} failed to shutdown after {maxWait} seconds. Force shutting down..." :: f.2)

/-- `KVMController.shutdown_vm`. -/
def shutdownVm (env : Env) (k : Nat) (vm : String) (maxWait : Nat) :
    Bool × Nat × List Act :=
  let i := getInstances env k
  let pre := Act.logInfo s!"Shutting down VM {vm}" :: i.2.2
  if instanceExists vm i.1 then
    if i.1.running.contains vm then
      if env.cmdOk s!"virsh shutdown {vm}" then
        let w := waitForVmShutdownForce env vm maxWait
        (w.1, i.2.1, pre ++ Act.runCmd s!"virsh shutdown {vm}" :: w.2)
      else
        (false, i.2.1, pre ++ [Act.runCmd s!"virsh shutdown {vm}", Act.logError s!"Failed to shutdown VM {vm}"])
    else (true, i.2.1, pre ++ [Act.logInfo s!"VM {vm} is not running"])
  else (false, i.2.1, pre ++ [Act.logError s!"VM {vm} does not exist"])

/-! ## Start machinery (`__display_vm_is_up`, `_wait_for_vm_init`,
`start_vm`) -/

/-- A Python value that is either a `str` or a `bool` (the dynamic
return type of `start_vm`). -/
inductive PyRet where
  | pyStr (s : String)
  | pyBool (b : Bool)
  deriving Repr, DecidableEq

/-- Python truthiness of such a value. -/
def PyRet.truthy : PyRet → Bool
  | .pyStr s => !s.isEmpty
  | .pyBool b => b

/-- Python string interpolation of such a value. -/
def PyRet.asStr : PyRet → String
  | .pyStr s => s
  | .pyBool b => if b then "True" else "False"

/-- `KVMController.__display_vm_is_up` during an init wait, poll
iteration `i`: query the guest IP; a non-empty IPv4 address is displayed
and returned, anything else yields `''`. -/
def displayVmIsUp (env : Env) (vm : String) (i : Nat) : String × List Act :=
  let ip := env.ipInitAt vm i
  let tr := [Act.runCmd s!"virsh guestinfo {vm}"]
  if ip.isEmpty then ("", tr)
  else if env.isIPv4 ip then (ip, tr ++ [Act.display s!"VM {vm} is up. IP: {ip}"])
  else ("", tr ++ [Act.logError s!"Invalid IP address for {vm}: {ip}"])

/-- The `while count < max_wait` loop of `_wait_for_vm_init` (5-second
steps, so `⌈maxWait/5⌉` iterations). -/
def waitInitLoop (env : Env) (vm : String) (i : Nat) : Nat → String × List Act
  | 0 => ("", [])
  | fuel + 1 =>
    let d := displayVmIsUp env vm i
    if d.1.isEmpty then
      let r := waitInitLoop env vm (i + 1) fuel
      (r.1, d.2 ++ Act.sleep 5 :: r.2)
    else d

/-- `KVMController._wait_for_vm_init`. -/
def waitForVmInit (env : Env) (vm : String) (maxWait : Nat) : String × List Act :=
  let r := waitInitLoop env vm 0 ((maxWait + 4) / 5)
  if r.1.isEmpty then
    (r.1, r.2 ++ [Act.logError s!"Failed to wait for vm {vm} to initialize after {maxWait} seconds"])
  else r

/-- `KVMController.start_vm`: `''` when undefined or failing,
the literal `True` when already running, else `virsh start` followed by
the init wait returning the populated IP (or `''`). -/
def startVm (env : Env) (k : Nat) (vm : String) (maxWait : Nat) :
    PyRet × Nat × List Act :=
  let i := getInstances env k
  let pre := Act.logInfo s!"Starting VM {vm}" :: i.2.2
  if instanceExists vm i.1 then
    if i.1.running.contains vm then
      (PyRet.pyBool true, i.2.1, pre ++ [Act.logInfo s!"VM {vm} is already running"])
    else if env.cmdOk s!"virsh start {vm}" then
      let w := waitForVmInit env vm maxWait
      (PyRet.pyStr w.1, i.2.1, pre ++ Act.runCmd s!"virsh start {vm}" :: w.2)
    else
      (PyRet.pyStr "", i.2.1, pre ++ [Act.runCmd s!"virsh start {vm}", Act.logError s!"Failed to start VM {vm}"])
  else (PyRet.pyStr "", i.2.1, pre ++ [Act.logError s!"VM {vm} does not exist"])

/-- `KVMController.hard_reset_vm` (annotated `bool` in the source but it
returns the init-wait string, the `start_vm` value or `False`). -/
def hardResetVm (env : Env) (k : Nat) (vm : String) : PyRet × Nat × List Act :=
  let i := getInstances env k
  let pre := Act.logInfo s!"Hard resetting VM {vm}" :: i.2.2
  if instanceExists vm i.1 then
    if i.1.running.contains vm then
      if env.cmdOk s!"virsh reset {vm}" then
        let w := waitForVmInit env vm 120
        (PyRet.pyStr w.1, i.2.1, pre ++ Act.runCmd s!"virsh reset {vm}" :: w.2)
      else
        (PyRet.pyBool false, i.2.1, pre ++ [Act.runCmd s!"virsh reset {vm}", Act.logError s!"Failed to hard reset VM {vm}"])
    else
      let s := startVm env i.2.1 vm 120
      (s.1, s.2.1, pre ++ Act.logInfo s!"VM {vm} is not running. Starting..." :: s.2.2)
  else (PyRet.pyBool false, i.2.1, pre ++ [Act.logError s!"VM {vm} does not exist"])

/-- `KVMController.reboot_vm` (annotated `bool` in the source but it
returns the init-wait string, the `start_vm` value or `False`). -/
def rebootVm (env : Env) (k : Nat) (vm : String) : PyRet × Nat × List Act :=
  let i := getInstances env k
  let pre := Act.logInfo s!"Rebooting VM {vm}" :: i.2.2
  if instanceExists vm i.1 then
    if i.1.running.contains vm then
      if env.cmdOk s!"virsh reboot {vm}" then
        let w := waitForVmInit env vm 120
        (PyRet.pyStr w.1, i.2.1, pre ++ Act.runCmd s!"virsh reboot {vm}" :: w.2)
      else
        (PyRet.pyBool false, i.2.1, pre ++ [Act.runCmd s!"virsh reboot {vm}", Act.logError s!"Failed to reboot VM {vm}"])
    else
      let s := startVm env i.2.1 vm 120
      (s.1, s.2.1, pre ++ Act.logInfo s!"VM {vm} is not running. Starting..." :: s.2.2)
  else (PyRet.pyBool false, i.2.1, pre ++ [Act.logError s!"VM {vm} does not exist"])

/-! ## Delete (`__delete_vm_directory`, `delete_vm`) -/

/-- `Utils._delete_ansible_client_directory`: remove the client directory
when present (the command's result is ignored; the method returns True). -/
def deleteAnsibleClientDirectory (env : Env) (vm : String) : Bool × List Act :=
  let dir := s!"{env.ansibleClients}/{vm}"
  if env.ansibleClientDirExists vm then (true, [Act.runCmd s!"rm -rf {dir}"])
  else (true, [])

/-- `KVMController.__delete_vm_directory`. -/
def deleteVmDirectory (env : Env) (vm : String) : Bool × List Act :=
  let dir := s!"{env.vmDir}/{vm}"
  if env.dirExists dir then
    let a := deleteAnsibleClientDirectory env vm
    let pre := [Act.logInfo s!"Deleting VM directory {dir}", Act.runCmd s!"rm -rf {dir}"]
    if env.cmdOk s!"rm -rf {dir}" then (a.1, pre ++ a.2) else (false, pre)
  else (true, [])

/-- `KVMController.__undefine_vm`. -/
def undefineVm (env : Env) (vm : String) : Bool × List Act :=
  if env.cmdOk s!"virsh undefine {vm}" then (true, [Act.runCmd s!"virsh undefine {vm}"])
  else (false, [Act.runCmd s!"virsh undefine {vm}", Act.logError s!"Failed to undefine VM {vm}"])

/-- `KVMController.delete_vm`: confirm (unless forced), then shut down a
running VM, undefine it when it exists, and delete its directory — the
directory removal runs whether or not the VM was in the inventory. -/
def deleteVm (env : Env) (k : Nat) (vm : String) (force : Bool) : Bool × Nat × List Act :=
  if force || lowerStr (env.userInput s!"Delete VM {vm} and all its data? [y/n]: ") == "y" then
    let i := getInstances env (k)
    let pre := Act.logInfo s!"Deleting VM {vm}" :: i.2.2
    if instanceExists vm i.1 then
      if i.1.running.contains vm then
        let s := shutdownVm env i.2.1 vm 60
        if s.1 then
          let u := undefineVm env vm
          if u.1 then
            let d := deleteVmDirectory env vm
            (d.1, s.2.1, pre ++ s.2.2 ++ u.2 ++ d.2)
          else (false, s.2.1, pre ++ s.2.2 ++ u.2)
        else (false, s.2.1, pre ++ s.2.2)
      else
        let u := undefineVm env vm
        if u.1 then
          let d := deleteVmDirectory env vm
          (d.1, i.2.1, pre ++ u.2 ++ d.2)
        else (false, i.2.1, pre ++ u.2)
    else
      let d := deleteVmDirectory env vm
      (d.1, i.2.1, pre ++ d.2)
  else (false, k, [])

/-! ## Data-disk creation (`__create_data_disk`, `__find_next_vm_target_disk`,
`__attach_data_disk`, `create_data_disk`) -/

/-- `KVMController.__create_data_disk`: convert the size (0 aborts before
any command), build the disk path, run `qemu-img create`. -/
def createDataDiskFile (env : Env) (vm : String) (size : String) (name : String) :
    String × List Act :=
  let sizeBytes := convertSizeToBytes size
  if sizeBytes = 0 then ("", [])
  else
    let name := if name = "GENERATE" then "data-" ++ env.genHex else name
    let diskName := s!"{env.vmDir}/{vm}/{name}.qcow2"
    if env.cmdOk s!"qemu-img create -f qcow2 {diskName} {sizeBytes}" then
      (diskName, [Act.runCmd s!"qemu-img create -f qcow2 {diskName} {sizeBytes}",
                  Act.logInfo s!"Successfully created data disk {diskName} for {vm}"])
    else
      ("", [Act.runCmd s!"qemu-img create -f qcow2 {diskName} {sizeBytes}",
            Act.logError s!"Failed to create data disk {diskName} for {vm}"])

/-- `KVMController.__find_next_vm_target_disk`: sort the attached targets,
step the final letter of the greatest one, `''` when it is `z`, `sda`
when no disk is attached. -/
def findNextVmTargetDisk (env : Env) (vm : String) : String × List Act :=
  let d := getVmDisks env vm
  let targets := d.1.map Prod.fst
  if targets.isEmpty then ("sda", d.2)
  else
    let sorted := targets.mergeSort (fun a b => a ≤ b)
    let lastTarget := lowerStr (sorted.getLastD "")
    if lastTarget.back = 'z' then ("", d.2 ++ [Act.logError "No more targets available"])
    else
      (lastTarget.dropRight 1 ++ String.singleton (Char.ofNat (lastTarget.back.toNat + 1)), d.2)

/-- `KVMController.__attach_data_disk`. -/
def attachDataDisk (env : Env) (vm diskName : String) (vms : Instances) :
    Bool × List Act :=
  let serial := s!"{vm}-{fileBase diskName}"
  let t := findNextVmTargetDisk env vm
  if t.1.isEmpty then
    (false, t.2 ++ [Act.logError s!"Failed to find target for data disk {diskName} on {vm}"])
  else
    let live := if vms.running.contains vm then " --live" else ""
    let cmd := s!"virsh attach-disk {vm} {diskName} --driver qemu --subdriver qcow2 --cache none --serial {serial} --target {t.1} --targetbus scsi{live} --persistent"
    if env.cmdOk cmd then
      (true, t.2 ++ [Act.runCmd cmd, Act.logInfo s!"Successfully attached data disk {diskName} to {vm}"])
    else
      (false, t.2 ++ [Act.runCmd cmd, Act.logError s!"Failed to attach data disk {diskName} to {vm}"])

/-- `KVMController.create_data_disk`: create the backing file (with no
inventory check), attach it, and — only for a running VM — format and
mount it through the playbook. -/
def createDataDisk (env : Env) (k : Nat) (vm : String) (size : String)
    (name : String) (filesystem : String) (mount : String) : Bool × Nat × List Act :=
  let c := createDataDiskFile env vm size name
  if c.1.isEmpty then (false, k, c.2)
  else
    let i := getInstances env k
    let a := attachDataDisk env vm c.1 i.1
    if a.1 then
      if i.1.running.contains vm then
        let deviceName := fileBase c.1
        let mnt := if mount = "default" then s!"/mnt/{deviceName}" else mount
        let ip := getVmIpByIndex env vm
        if ip.1.isEmpty then
          (false, i.2.1, c.2 ++ i.2.2 ++ a.2 ++ ip.2
            ++ [Act.logError s!"Failed to get IP address to run ansible playbook on {vm}"])
        else
          let p := runAnsiblePlaybook env ip.1 vm "format_and_mount_data_disk.yml"
            [("device_name", deviceName), ("filesystem", filesystem), ("mount", mnt)]
          if p.1 then
            (true, i.2.1, c.2 ++ i.2.2 ++ a.2 ++ ip.2 ++ p.2
              ++ [Act.logInfo s!"Successfully formatted and mounted {c.1} on {vm}"])
          else
            (true, i.2.1, c.2 ++ i.2.2 ++ a.2 ++ ip.2 ++ p.2
              ++ [Act.logInfo s!"Successfully attached {c.1} to {vm}, but did not format or mount it"])
      else
        (true, i.2.1, c.2 ++ i.2.2 ++ a.2
          ++ [Act.logInfo s!"Successfully attached {c.1} to {vm}, but did not format or mount it"])
    else (false, i.2.1, c.2 ++ i.2.2 ++ a.2)

/-! ## Network interfaces (`add_network_interface`,
`remove_network_interface`) -/

/-- `KVMController.__create_add_network_file`: write the new-interface
XML into the VM directory, returning its path (or `''` on failure). -/
def createAddNetworkFile (env : Env) (vm : String) : Option String × List Act :=
  let path := s!"{env.vmDir}/{vm}/add-network.xml"
  if env.writeOk path then (some path, [Act.fileWrite path])
  else (none, [Act.logError s!"Failed to create network interface file {path}"])

/-- `KVMController.__create_remove_network_file`. -/
def createRemoveNetworkFile (env : Env) (vm : String) : Option String × List Act :=
  let path := s!"{env.vmDir}/{vm}/remove-network.xml"
  if env.writeOk path then (some path, [Act.fileWrite path])
  else (none, [Act.logError s!"Failed to create network remove file {path}"])

/-- `KVMController.__create_remove_disk_file`. -/
def createRemoveDiskFile (env : Env) (vm : String) : Option String × List Act :=
  let path := s!"{env.vmDir}/{vm}/remove-disk.xml"
  if env.writeOk path then (some path, [Act.fileWrite path])
  else (none, [Act.logError s!"Failed to create disk remove file {path}"])

/-- `KVMController.__remove_config_file`. -/
def removeConfigFile (env : Env) (path : String) : Bool × List Act :=
  if env.removeOk path then (true, [Act.fileRemove path])
  else (false, [Act.logError s!"Failed to remove file {path}"])

/-- `KVMController.__attach_device` (instances provided by the caller). -/
def attachDevice (env : Env) (vm configFile : String) (instances : Instances) :
    Bool × List Act :=
  let live := if instances.running.contains vm then " --live --persistent" else ""
  let cmd := s!"virsh attach-device {vm} {configFile} --config{live}"
  (env.cmdOk cmd, [Act.runCmd cmd])

/-- `KVMController.__detach_device` (instances provided by the caller). -/
def detachDevice (env : Env) (vm configFile : String) (instances : Instances) :
    Bool × List Act :=
  let live := if instances.running.contains vm then " --live --persistent" else ""
  let cmd := s!"virsh detach-device {vm} {configFile} --config{live}"
  (env.cmdOk cmd, [Act.runCmd cmd])

/-- `KVMController.display_vm_interfaces`: a `virsh guestinfo` query for a
running VM, a `virsh dumpxml` query otherwise; displays JSON and returns
the (truthy) display result. -/
def displayVmInterfaces (env : Env) (vm : String) (instances : Instances) :
    Bool × List Act :=
  if instances.running.contains vm then
    (true, [Act.runCmd s!"virsh guestinfo {vm}", Act.display s!"interfaces of {vm}"])
  else
    (true, [Act.runCmd s!"virsh dumpxml {vm}", Act.display s!"interfaces of {vm}"])

/-- `KVMController.add_network_interface`. -/
def addNetworkInterface (env : Env) (k : Nat) (vm : String) : Bool × Nat × List Act :=
  let i := getInstances env k
  if instanceExists vm i.1 then
    let c := createAddNetworkFile env vm
    match c.1 with
    | none =>
      (false, i.2.1, i.2.2 ++ c.2 ++ [Act.logError s!"Failed to attach network interface to {vm}"])
    | some cfg =>
      let a := attachDevice env vm cfg i.1
      if a.1 then
        let r := removeConfigFile env cfg
        if r.1 then
          let w := if i.1.running.contains vm then [Act.sleep 15] else []
          let d := displayVmInterfaces env vm i.1
          (d.1, i.2.1, i.2.2 ++ c.2 ++ a.2 ++ r.2 ++ w
            ++ Act.logInfo s!"Successfully attached network interface to {vm}" :: d.2)
        else
          (false, i.2.1, i.2.2 ++ c.2 ++ a.2 ++ r.2
            ++ [Act.logError s!"Failed to attach network interface to {vm}"])
      else
        (false, i.2.1, i.2.2 ++ c.2 ++ a.2
          ++ [Act.logError s!"Failed to attach network interface to {vm}"])
  else (false, i.2.1, i.2.2 ++ [Act.logError s!"VM {vm} does not exist"])

/-- `KVMController.remove_network_interface`. -/
def removeNetworkInterface (env : Env) (k : Nat) (vm mac : String) :
    Bool × Nat × List Act :=
  let i := getInstances env k
  if instanceExists vm i.1 then
    let c := createRemoveNetworkFile env vm
    match c.1 with
    | none =>
      (false, i.2.1, i.2.2 ++ c.2 ++ [Act.logError s!"Failed to attach network interface to {vm}"])
    | some cfg =>
      let a := detachDevice env vm cfg i.1
      if a.1 then
        let r := removeConfigFile env cfg
        if r.1 then
          let d := displayVmInterfaces env vm i.1
          (d.1, i.2.1, i.2.2 ++ c.2 ++ a.2 ++ r.2
            ++ Act.logInfo s!"Successfully removed network interface from {vm}" :: d.2)
        else
          (false, i.2.1, i.2.2 ++ c.2 ++ a.2 ++ r.2
            ++ [Act.logError s!"Failed to attach network interface to {vm}"])
      else
        (false, i.2.1, i.2.2 ++ c.2 ++ a.2
          ++ [Act.logError s!"Failed to attach network interface to {vm}"])
  else (false, i.2.1, i.2.2 ++ [Act.logError s!"VM {vm} does not exist"])

/-! ## Mount / unmount / remove data disk -/

/-- `KVMController.__unmount_system_disk`: needs the guest IP, then runs
the `unmount_disk.yml` playbook against `vm-basename-part1`. -/
def unmountSystemDiskInner (env : Env) (vm device : String)
    (disks : List (String × String)) : Bool × List Act :=
  let ip := getVmIpByIndex env vm
  if ip.1.isEmpty then
    (false, ip.2 ++ [Act.logError s!"Failed to get IP address to unmount {device} on {vm}"])
  else
    let loc := ((disks.filter (fun d => d.1 = device)).headD ("", "")).2
    let deviceName := s!"{vm}-{fileBase loc}-part1"
    let p := runAnsiblePlaybook env ip.1 vm "unmount_disk.yml" [("device_name", deviceName)]
    if p.1 then (true, ip.2 ++ p.2 ++ [Act.logInfo s!"Successfully unmounted {device} on {vm}"])
    else (false, ip.2 ++ p.2 ++ [Act.logError s!"Failed to unmount {device} on {vm}"])

/-- `KVMController.__mount_system_disk`. -/
def mountSystemDiskInner (env : Env) (vm deviceName mnt : String) : Bool × List Act :=
  let ip := getVmIpByIndex env vm
  if ip.1.isEmpty then
    (false, ip.2 ++ [Act.logError s!"Failed to get IP address to mount {deviceName} on {vm}"])
  else
    let p := runAnsiblePlaybook env ip.1 vm "mount_disk.yml"
      [("device_name", deviceName), ("mount", mnt)]
    if p.1 then (true, ip.2 ++ p.2 ++ [Act.logInfo s!"Successfully mounted {deviceName} on {vm}"])
    else (false, ip.2 ++ p.2 ++ [Act.logError s!"Failed to mount {deviceName} on {vm}"])

/-- Assoc lookup mirroring Python `device in disks` / `disks[device]`. -/
def diskLookup (disks : List (String × String)) (device : String) : Option String :=
  match disks.filter (fun d => d.1 = device) with
  | [] => none
  | d :: _ => some d.2

/-- `KVMController.unmount_system_disk`: refuse `sda` outright, then
require the disk to exist and the VM to run. -/
def unmountSystemDisk (env : Env) (k : Nat) (vm device : String) :
    Bool × Nat × List Act :=
  if device = "sda" then (false, k, [Act.logError "Cannot unmount system boot disk"])
  else
    let d := getVmDisks env vm
    match diskLookup d.1 device with
    | some _ =>
      let i := getInstances env k
      if i.1.running.contains vm then
        let u := unmountSystemDiskInner env vm device d.1
        (u.1, i.2.1, d.2 ++ i.2.2 ++ u.2)
      else (false, i.2.1, d.2 ++ i.2.2 ++ [Act.logError s!"VM {vm} is not running"])
    | none => (false, k, d.2 ++ [Act.logError s!"Disk {device} not found on {vm}"])

/-- `KVMController.mount_system_disk`: refuse `sda` outright; mounts
`basename-part1` at the requested (or default) mount point. -/
def mountSystemDisk (env : Env) (k : Nat) (vm device mnt : String) :
    Bool × Nat × List Act :=
  if device = "sda" then (false, k, [Act.logError "Cannot mount system boot disk"])
  else
    let d := getVmDisks env vm
    match diskLookup d.1 device with
    | some loc =>
      let deviceName := fileBase loc
      let mnt := if mnt = "default" then s!"/mnt/{deviceName}" else mnt
      let i := getInstances env k
      if i.1.running.contains vm then
        let m := mountSystemDiskInner env vm (deviceName ++ "-part1") mnt
        (m.1, i.2.1, d.2 ++ i.2.2 ++ m.2)
      else (false, i.2.1, d.2 ++ i.2.2 ++ [Act.logError s!"VM {vm} is not running"])
    | none => (false, k, d.2 ++ [Act.logError s!"Disk {device} not found on {vm}"])

/-- `KVMController.__remove_data_disk`: write the removal XML, detach the
device, delete the XML. -/
def removeDataDiskInner (env : Env) (vm device loc : String) (vms : Instances) :
    Bool × List Act :=
  let c := createRemoveDiskFile env vm
  match c.1 with
  | none => (false, c.2 ++ [Act.logError s!"Failed to remove disk {device} from {vm}"])
  | some cfg =>
    let dt := detachDevice env vm cfg vms
    if dt.1 then
      let r := removeConfigFile env cfg
      if r.1 then
        (true, c.2 ++ dt.2 ++ r.2 ++ [Act.logInfo s!"Successfully removed disk {device} from {vm}"])
      else
        (false, c.2 ++ dt.2 ++ r.2 ++ [Act.logError s!"Failed to remove disk {device} from {vm}"])
    else (false, c.2 ++ dt.2 ++ [Act.logError s!"Failed to remove disk {device} from {vm}"])

/-- `KVMController.__delete_vm_disk`. -/
def deleteVmDisk (env : Env) (diskName : String) : Bool × List Act :=
  if env.removeOk diskName then
    (true, [Act.fileRemove diskName, Act.logInfo s!"Deleted disk {diskName}"])
  else (false, [Act.logError s!"Failed to delete disk {diskName}"])

/-- `KVMController.remove_data_disk`: refuse `sda`; unmount first when
running; detach; then delete the backing file only with `force` or an
interactive yes — declining falls through to the `Disk … not found`
failure return. -/
def removeDataDisk (env : Env) (k : Nat) (vm device : String) (force : Bool) :
    Bool × Nat × List Act :=
  if device = "sda" then (false, k, [Act.logError "Cannot remove system boot disk"])
  else
    let d := getVmDisks env vm
    match diskLookup d.1 device with
    | some loc =>
      let i := getInstances env k
      let um :=
        if i.1.running.contains vm then unmountSystemDiskInner env vm device d.1
        else (true, [])
      if um.1 then
        let rm := removeDataDiskInner env vm device loc i.1
        if rm.1 then
          if force || lowerStr (env.userInput s!"Delete disk {loc} from {vm}? [y/n]: ") == "y" then
            let del := deleteVmDisk env loc
            (del.1, i.2.1, d.2 ++ i.2.2 ++ um.2 ++ rm.2 ++ del.2)
          else
            (false, i.2.1, d.2 ++ i.2.2 ++ um.2 ++ rm.2
              ++ [Act.logError s!"Disk {device} not found on {vm}"])
        else (false, i.2.1, d.2 ++ i.2.2 ++ um.2 ++ rm.2)
      else (false, i.2.1, d.2 ++ i.2.2 ++ um.2)
    | none => (false, k, d.2 ++ [Act.logError s!"Disk {device} not found on {vm}"])

/-! ## Disk resize (`__validate_disk_change`, `__increase_disk_size`,
`increase_disk_size`) -/

/-- `KVMController.__validate_disk_change`: a running VM must be shut
down first (forced or confirmed). -/
def validateDiskChange (env : Env) (k : Nat) (vm : String) (force : Bool) :
    Bool × Nat × List Act :=
  let i := getInstances env k
  if i.1.running.contains vm then
    if force || lowerStr (env.userInput s!"VM {vm} is running. Shutdown? [y/n]: ") == "y" then
      let s := shutdownVm env i.2.1 vm 60
      (s.1, s.2.1, i.2.2 ++ s.2.2)
    else
      (false, i.2.1, i.2.2 ++ [Act.logError s!"VM {vm} is running. Cannot increase disk size"])
  else (true, i.2.1, i.2.2)

/-- `KVMController.__increase_disk_size`: validate, then
`qemu-img resize <device> +<bytes>`. -/
def increaseDiskSizeInner (env : Env) (k : Nat) (vm device size : String)
    (force : Bool) : Bool × Nat × List Act :=
  let v := validateDiskChange env k vm force
  if v.1 then
    let sizeBytes := convertSizeToBytes size
    let cmd := s!"qemu-img resize {device} +{sizeBytes}"
    if sizeBytes ≠ 0 ∧ env.cmdOk cmd then
      (true, v.2.1, v.2.2 ++ [Act.runCmd cmd, Act.logInfo s!"Successfully increased disk {device} by {size}"])
    else if sizeBytes ≠ 0 then
      (false, v.2.1, v.2.2 ++ [Act.runCmd cmd, Act.logError s!"Failed to increase disk {device}"])
    else (false, v.2.1, v.2.2 ++ [Act.logError s!"Failed to increase disk {device}"])
  else (false, v.2.1, v.2.2)

/-- `KVMController.increase_disk_size`: resize the backing file, restart
the VM, then grow partition and filesystem through `resize_disk.yml`;
the device name gets a `-part1` suffix for every target except `sda`. -/
def increaseDiskSize (env : Env) (k : Nat) (vm device size : String) (force : Bool) :
    Bool × Nat × List Act :=
  let d := getVmDisks env vm
  match diskLookup d.1 device with
  | some loc =>
    let inc := increaseDiskSizeInner env k vm loc size force
    if inc.1 then
      let s := startVm env inc.2.1 vm 120
      if s.1.truthy then
        let suffix := if device ≠ "sda" then "-part1" else ""
        let deviceName := s!"{vm}-{fileBase loc}{suffix}"
        let p := runAnsiblePlaybook env s.1.asStr vm "resize_disk.yml" [("device_name", deviceName)]
        if p.1 then
          (true, s.2.1, d.2 ++ inc.2.2 ++ s.2.2 ++ p.2
            ++ [Act.logInfo s!"Successfully resized disk {device} on {vm}"])
        else
          (false, s.2.1, d.2 ++ inc.2.2 ++ s.2.2 ++ p.2
            ++ [Act.logError s!"Failed to resize disk {device} on {vm}"])
      else (false, s.2.1, d.2 ++ inc.2.2 ++ s.2.2)
    else (false, inc.2.1, d.2 ++ inc.2.2)
  | none => (false, k, d.2 ++ [Act.logError s!"Disk {device} not found on {vm}"])

/-! ## The cloud controller (`GCPController._wait_for_zone_operation`,
`GCPController.start_instance`)

The remote asynchronous operation is observed through
`get_zone_operation`; `fetch op i` is the response of the `i`-th fetch
(`none` models a failed fetch).  The `while True` loop carries no bound,
so the embedding takes fuel and returns `none` while still looping. -/

structure GcpOp where
  /-- `result.status == compute_v1.Operation.Status.DONE`. -/
  statusDone : Bool
  /-- Truthiness and payload of `result.error`. -/
  error : Option String
  deriving Repr, DecidableEq

structure GcpEnv where
  fetch : String → Nat → Option GcpOp
  startOp : String → Option String
  clientOk : Bool

def fetchAct (opName : String) : Act := Act.apiCall s!"get_zone_operation {opName}"

/-- `GCPController._wait_for_zone_operation`: fetch the operation; a
failed fetch is a terminal failure; `DONE` with an error set is a
terminal failure; `DONE` without error is success; anything else sleeps
3 seconds and retries forever. -/
def waitForZoneOperation (env : GcpEnv) (opName : String) :
    Nat → Nat → Option (Bool × List Act)
  | _, 0 => none
  | i, fuel + 1 =>
    match env.fetch opName i with
    | some r =>
      if r.statusDone then
        match r.error with
        | some e =>
          some (false, [fetchAct opName,
            Act.logError s!"Operation {opName} finished with error: {e}"])
        | none =>
          some (true, [fetchAct opName,
            Act.display s!"Operation {opName} completed successfully"])
      else
        match waitForZoneOperation env opName (i + 1) fuel with
        | some p =>
          some (p.1, fetchAct opName
            :: Act.display s!"Waiting for operation {opName} to complete..."
            :: Act.sleep 3 :: p.2)
        | none => none
    | none => some (false, [fetchAct opName, Act.logError s!"Failed to get operation {opName}"])

/-- `GCPController.start_instance`: issue the start call and delegate the
outcome to the zone-operation poller. -/
def startInstance (env : GcpEnv) (name : String) (fuel : Nat) :
    Option (Bool × List Act) :=
  if env.clientOk then
    let pre := [Act.logInfo s!"Starting GCP instance {name}", Act.apiCall s!"instances.start {name}"]
    match env.startOp name with
    | some opName =>
      match waitForZoneOperation env opName 0 fuel with
      | some p => some (p.1, pre ++ p.2)
      | none => none
    | none =>
      some (false, pre ++ [Act.logError s!"Failed to start GCP instance {name}"])
  else some (false, [])

/-! ## Concrete environments used by witnesses -/

/-- A small healthy hypervisor: `vm1` running, `vm2` stopped. -/
def demoEnv : Env := {
  instancesAt := fun _ => ⟨["vm1"], ["vm2"], []⟩
  cmdOk := fun _ => true
  stoppedAt := fun _ _ => false
  stoppedAfterDestroyAt := fun _ _ => true
  disks := fun v =>
    if v = "vm1" then [("sda", "/k2g/vms/vm1/boot.qcow2"), ("sdb", "/k2g/vms/vm1/data-ab.qcow2")]
    else []
  ipOf := fun _ => "192.168.122.10"
  ipInitAt := fun _ _ => "192.168.122.10"
  isIPv4 := fun s => s == "192.168.122.10"
  userInput := fun _ => "n"
  dirExists := fun _ => true
  ansibleClientDirExists := fun _ => true
  writeOk := fun _ => true
  removeOk := fun _ => true
  ansibleOk := fun _ _ _ _ => true
  vmDir := "/k2g/vms"
  ansibleClients := "/k2g/ansible/clients"
  genHex := "cafe0123" }

/-- Inventory with no VM at all (for operations on an absent name). -/
def emptyEnv : Env := { demoEnv with instancesAt := fun _ => ⟨[], [], []⟩ }

/-- `vm1`'s greatest attached target is `sdz`. -/
def envSdz : Env :=
  { demoEnv with disks := fun v =>
      if v = "vm1" then [("sda", "/k2g/vms/vm1/boot.qcow2"), ("sdz", "/k2g/vms/vm1/data-zz.qcow2")]
      else [] }

/-- `vm1` stopped (shutdown-free resize path), stops immediately when
asked. -/
def envStopped : Env :=
  { demoEnv with
      instancesAt := fun _ => ⟨[], ["vm1"], []⟩
      stoppedAt := fun _ _ => true }

/-- `vm1` running for the first two listings, stopped afterwards (the
world as seen by a resize that shuts the VM down and restarts it). -/
def envPhased : Env :=
  { demoEnv with
      instancesAt := fun k => if k ≤ 1 then ⟨["vm1"], [], []⟩ else ⟨[], ["vm1"], []⟩
      stoppedAt := fun _ _ => true }

/-- A poll sequence that is pending once and then reports `DONE` with an
error payload. -/
def gcpDemoEnv : GcpEnv := {
  fetch := fun _ i => if i = 0 then some ⟨false, none⟩ else some ⟨true, some "quota"⟩
  startOp := fun _ => some "op-1"
  clientOk := true }

/-! ## Helper lemmas -/

theorem getLastD_mem : ∀ (l : List String) (d : String), l ≠ [] → l.getLastD d ∈ l
  | [a], _, _ => by simp
  | a :: b :: t, d, _ => by
    rw [List.getLastD_cons]
    exact List.mem_cons_of_mem a (getLastD_mem (b :: t) a (by simp))

theorem le_getLastD_of_sorted :
    ∀ (l : List String) (d : String),
      List.Pairwise (fun a b : String => a ≤ b) l → ∀ x ∈ l, x ≤ l.getLastD d
  | [], _, _, x, hx => by cases hx
  | [a], _, _, x, hx => by
    rw [List.mem_singleton] at hx
    subst hx; simp
  | a :: b :: t, d, hp, x, hx => by
    rw [List.getLastD_cons]
    rcases List.mem_cons.mp hx with h | hxt
    · subst h
      exact (List.pairwise_cons.mp hp).1 _ (getLastD_mem (b :: t) x (by simp))
    · exact le_getLastD_of_sorted (b :: t) a (List.pairwise_cons.mp hp).2 x hxt

theorem strStarts_append (p r : String) : strStarts p (p ++ r) = true := by
  unfold strStarts
  rw [List.isPrefixOf_iff_prefix, String.data_append]
  exact List.prefix_append _ _

theorem strStarts_trans_append {p q : String} (h : strStarts p q = true) (r : String) :
    strStarts p (q ++ r) = true := by
  unfold strStarts at *
  rw [List.isPrefixOf_iff_prefix] at h
  rw [List.isPrefixOf_iff_prefix, String.data_append]
  exact h.trans (List.prefix_append _ _)

/-- A command starting with one of the read-only verbs does not mutate. -/
theorem runCmd_readonly {c : String} (p : String) (hp : p ∈ readOnlyCmdStarts)
    (h : strStarts p c = true) : (Act.runCmd c).isBackendMutation = false := by
  unfold Act.isBackendMutation
  simp only [Bool.not_eq_false', List.any_eq_true]
  exact ⟨p, hp, h⟩

/-- C5 and others: the `virsh domblklist <vm>` query is read-only. -/
theorem domblklist_readonly (vm : String) :
    (Act.runCmd s!"virsh domblklist {vm}").isBackendMutation = false := by
  refine runCmd_readonly "virsh domblklist" (by decide) ?_
  have : (s!"virsh domblklist {vm}" : String) = "virsh domblklist " ++ vm := by
    simp [toString]
  rw [this]
  exact strStarts_trans_append (by decide) vm

theorem domblkinfo_readonly (vm t : String) :
    (Act.runCmd s!"virsh domblkinfo {vm} {t}").isBackendMutation = false := by
  refine runCmd_readonly "virsh domblkinfo" (by decide) ?_
  have hs : (s!"virsh domblkinfo {vm} {t}" : String) = "virsh domblkinfo " ++ vm ++ " " ++ t := by
    simp [toString]
  rw [hs]
  exact strStarts_trans_append (strStarts_trans_append (strStarts_trans_append (by decide) vm) " ") t

/-! ## Claims -/

/-- C5: `to_bytes("10G") = 10·1024³`, `to_bytes("2048") = 2048`,
`to_bytes("1TiB") = 1024⁴`; the k/m/g/t suffixes and their b/ib variants
are accepted case-insensitively; and every input that is not all digits
and whose suffix is not one of the known ones yields the failure value 0
instead of raising. -/
theorem c5_size_parsing :
    convertSizeToBytes "10G" = 10 * 1024 ^ 3 ∧
    convertSizeToBytes "2048" = 2048 ∧
    convertSizeToBytes "1TiB" = 1024 ^ 4 ∧
    (convertSizeToBytes "1k" = 1024 ∧ convertSizeToBytes "1K" = 1024 ∧
     convertSizeToBytes "1kb" = 1024 ∧ convertSizeToBytes "1KB" = 1024 ∧
     convertSizeToBytes "1KiB" = 1024 ∧ convertSizeToBytes "1kib" = 1024 ∧
     convertSizeToBytes "1m" = 1024 ^ 2 ∧ convertSizeToBytes "1MiB" = 1024 ^ 2 ∧
     convertSizeToBytes "1g" = 1024 ^ 3 ∧ convertSizeToBytes "1GB" = 1024 ^ 3 ∧
     convertSizeToBytes "1t" = 1024 ^ 4 ∧ convertSizeToBytes "1Tb" = 1024 ^ 4) ∧
    ∀ s : String, pyStrIsDigit s = false →
      (splitSizeSuffix s).2 ∉ suffixesT ++ suffixesG ++ suffixesM ++ suffixesK →
      convertSizeToBytes s = 0 := by
  refine ⟨by decide, by decide, by decide, by decide, ?_⟩
  intro s h1 h2
  have hT : (splitSizeSuffix s).2 ∉ suffixesT := fun h => h2 (by simp [h])
  have hG : (splitSizeSuffix s).2 ∉ suffixesG := fun h => h2 (by simp [h])
  have hM : (splitSizeSuffix s).2 ∉ suffixesM := fun h => h2 (by simp [h])
  have hK : (splitSizeSuffix s).2 ∉ suffixesK := fun h => h2 (by simp [h])
  simp [convertSizeToBytes, h1, hT, hG, hM, hK]

/-- C5 witness: `"5x"` has an unknown suffix and parses to the failure
value 0. -/
theorem c5_size_parsing_witness :
    pyStrIsDigit "5x" = false ∧
    (splitSizeSuffix "5x").2 ∉ suffixesT ++ suffixesG ++ suffixesM ++ suffixesK ∧
    convertSizeToBytes "5x" = 0 :=
  ⟨by decide, by decide, c5_size_parsing.2.2.2.2 "5x" (by decide) (by decide)⟩

/-- C6: for every environment, VM and force flag, `remove_data_disk`,
`mount_system_disk` and `unmount_system_disk` on target `sda` fail with
the boot-disk refusal as their only action: nothing is detached, mounted
or unmounted and no backend query is even made. -/
theorem c6_boot_disk_refusal (env : Env) (k : Nat) (vm mnt : String) (force : Bool) :
    removeDataDisk env k vm "sda" force =
      (false, k, [Act.logError "Cannot remove system boot disk"]) ∧
    mountSystemDisk env k vm "sda" mnt =
      (false, k, [Act.logError "Cannot mount system boot disk"]) ∧
    unmountSystemDisk env k vm "sda" =
      (false, k, [Act.logError "Cannot unmount system boot disk"]) := by
  refine ⟨?_, ?_, ?_⟩ <;> simp [removeDataDisk, mountSystemDisk, unmountSystemDisk]

/-- C8 counterexample: with `base = 1000` the implementation still
divides by 1024 (yielding `0.977 KB` for 1000 bytes) while the
divide-by-`base` description yields `1 KB`, so the claim's "for every
base" reading is false. -/
theorem c8_counterexample :
    bytesToHumanReadable (.ofNat 1000) 0 (.ofNat 1000) = "0.977 KB" ∧
    bytesToHumanSpec (.ofNat 1000) 0 (.ofNat 1000) = "1 KB" ∧
    bytesToHumanReadable (.ofNat 1000) 0 (.ofNat 1000) ≠
      bytesToHumanSpec (.ofNat 1000) 0 (.ofNat 1000) :=
  ⟨by decide, by decide, by decide⟩

/-- C8 (amended): the reduction loop always divides by 1024, so the
divide-by-`base` description of `to_human` holds exactly when
`base = 1024` (for every starting value and start unit); the unit-name
and formatting rules and the examples `to_human(1024) = "1 KiB"`,
`to_human(1536) = "1.500 KiB"` hold as stated. -/
theorem c8_amended :
    (∀ (u : PosRat) (i : Nat),
      bytesToHumanReadable u i (.ofNat 1024) = bytesToHumanSpec u i (.ofNat 1024)) ∧
    bytesToHumanReadable (.ofNat 1024) 0 (.ofNat 1024) = "1 KiB" ∧
    bytesToHumanReadable (.ofNat 1536) 0 (.ofNat 1024) = "1.500 KiB" :=
  ⟨fun _ _ => rfl, by decide, by decide⟩

/-- C4: for a VM with at least one attached disk, the next allocated
target is exactly one letter past the lexicographically greatest
currently-attached target `g` (gaps below `g` are never reused), and
allocation fails (returns `''`) when `g` ends in `z`. -/
theorem c4_target_allocation (env : Env) (vm g : String)
    (hg : g ∈ (env.disks vm).map Prod.fst)
    (hmax : ∀ t ∈ (env.disks vm).map Prod.fst, t ≤ g) :
    (findNextVmTargetDisk env vm).1 =
      if (lowerStr g).back = 'z' then ""
      else (lowerStr g).dropRight 1
        ++ String.singleton (Char.ofNat ((lowerStr g).back.toNat + 1)) := by
  unfold findNextVmTargetDisk getVmDisks
  have htne : ((env.disks vm).map Prod.fst) ≠ [] := by
    intro h
    rw [h] at hg
    cases hg
  have hs := List.sorted_mergeSort' (α := String) ((env.disks vm).map Prod.fst)
  have hperm := List.mergeSort_perm ((env.disks vm).map Prod.fst)
    (fun a b : String => decide (a ≤ b))
  have hsne : ((env.disks vm).map Prod.fst).mergeSort (fun a b : String => decide (a ≤ b)) ≠ [] := by
    intro h
    apply htne
    have hp := hperm.symm
    rw [h] at hp
    exact hp.eq_nil
  have hlast_mem :
      (((env.disks vm).map Prod.fst).mergeSort (fun a b : String => decide (a ≤ b))).getLastD ""
        ∈ (env.disks vm).map Prod.fst :=
    hperm.subset (getLastD_mem _ "" hsne)
  have h1 := hmax _ hlast_mem
  have h2 := le_getLastD_of_sorted _ "" hs g (hperm.mem_iff.mpr hg)
  have hlast :
      (((env.disks vm).map Prod.fst).mergeSort (fun a b : String => decide (a ≤ b))).getLastD ""
        = g := le_antisymm h1 h2
  simp only [List.isEmpty_eq_true, htne, if_false, hlast]
  split <;> rfl

/-- C4 witness: targets `{sda, sdb}` allocate `sdc`; greatest target
`sdz` makes allocation fail. -/
theorem c4_target_allocation_witness :
    (findNextVmTargetDisk demoEnv "vm1").1 = "sdc" ∧
    (findNextVmTargetDisk envSdz "vm1").1 = "" := by
  have h1 := c4_target_allocation demoEnv "vm1" "sdb" (by decide)
    (by
      intro t ht
      rw [String.le_iff_toList_le]
      simp [demoEnv] at ht
      rcases ht with rfl | rfl <;> decide)
  have h2 := c4_target_allocation envSdz "vm1" "sdz" (by decide)
    (by
      intro t ht
      rw [String.le_iff_toList_le]
      simp [envSdz, demoEnv] at ht
      rcases ht with rfl | rfl <;> decide)
  rw [h1, h2]
  exact ⟨by decide, by decide⟩

theorem append_ne_of_not_prefix {p q : String} (h : ¬ (p.data <+: q.data)) (r : String) :
    p ++ r ≠ q := by
  intro he
  apply h
  have hd := congrArg String.data he
  rw [String.data_append] at hd
  exact hd ▸ List.prefix_append _ _

/-- A `virsh start <vm>` command is never the inventory listing. -/
theorem virshStart_ne_listAll (vm : String) :
    (s!"virsh start {vm}" : String) ≠ "virsh list --all" := by
  have hs : (s!"virsh start {vm}" : String) = "virsh start " ++ vm := by simp [toString]
  rw [hs]
  exact append_ne_of_not_prefix (by decide) vm

/-- A successful `__display_vm_is_up` value is a validated IPv4 address
coming from the guest-info poll. -/
theorem displayVmIsUp_valid (env : Env) (vm : String) (i : Nat) (s : String)
    (h : (displayVmIsUp env vm i).1 = s) (hs : s ≠ "") :
    env.isIPv4 s = true ∧ ∃ t, env.ipInitAt vm t = s := by
  unfold displayVmIsUp at h
  by_cases h1 : (env.ipInitAt vm i).isEmpty
  · simp only [h1, if_true] at h
    exact absurd h.symm hs
  · simp only [h1, Bool.false_eq_true, if_false] at h
    by_cases h2 : env.isIPv4 (env.ipInitAt vm i)
    · simp only [h2, if_true] at h
      subst h
      exact ⟨h2, i, rfl⟩
    · simp only [h2, Bool.false_eq_true, if_false] at h
      exact absurd h.symm hs

theorem waitInitLoop_valid (env : Env) (vm : String) :
    ∀ (fuel i : Nat) (s : String), (waitInitLoop env vm i fuel).1 = s → s ≠ "" →
      env.isIPv4 s = true ∧ ∃ t, env.ipInitAt vm t = s := by
  intro fuel
  induction fuel with
  | zero => intro i s h hs; exact absurd h.symm hs
  | succ n ih =>
    intro i s h hs
    unfold waitInitLoop at h
    by_cases hd : (displayVmIsUp env vm i).1.isEmpty
    · simp only [hd, if_true] at h
      exact ih (i + 1) s h hs
    · simp only [hd, Bool.false_eq_true, if_false] at h
      exact displayVmIsUp_valid env vm i s h hs

theorem waitForVmInit_valid (env : Env) (vm : String) (maxWait : Nat) (s : String)
    (h : (waitForVmInit env vm maxWait).1 = s) (hs : s ≠ "") :
    env.isIPv4 s = true ∧ ∃ t, env.ipInitAt vm t = s := by
  unfold waitForVmInit at h
  by_cases he : (waitInitLoop env vm 0 ((maxWait + 4) / 5)).1.isEmpty
  · simp only [he, if_true] at h
    exact waitInitLoop_valid env vm _ 0 s h hs
  · simp only [he, Bool.false_eq_true, if_false] at h
    exact waitInitLoop_valid env vm _ 0 s (by rw [← h]) hs

/-- C9: `start_vm` returns the boolean `True` exactly when the VM is in
the running set (and then issues no `virsh start`); in every other case
it returns a string — the populated, validated IPv4 address when it is
non-empty, and `''` on failure — so the no-op success value is not an IP
address. -/
theorem c9_start_vm (env : Env) (k : Nat) (vm : String) (maxWait : Nat) :
    ((startVm env k vm maxWait).1 = PyRet.pyBool true ↔
      (env.instancesAt k).running.contains vm = true) ∧
    ((env.instancesAt k).running.contains vm = true →
      Act.runCmd s!"virsh start {vm}" ∉ (startVm env k vm maxWait).2.2) ∧
    ((env.instancesAt k).running.contains vm = false →
      ∃ s, (startVm env k vm maxWait).1 = PyRet.pyStr s) ∧
    (∀ s, (startVm env k vm maxWait).1 = PyRet.pyStr s → s ≠ "" →
      env.isIPv4 s = true ∧ ∃ t, env.ipInitAt vm t = s) := by
  unfold startVm getInstances
  by_cases hrun : (env.instancesAt k).running.contains vm = true
  · have hmem : vm ∈ (env.instancesAt k).running := by simpa using hrun
    have hex : instanceExists vm (env.instancesAt k) = true := by
      unfold instanceExists
      simp [hmem]
    simp only [hex, hrun, if_true]
    refine ⟨by simp [hrun], ?_, by simp [hrun], by simp⟩
    intro _ hmem2
    simp only [List.cons_append, List.nil_append, List.mem_cons, List.not_mem_nil,
      or_false] at hmem2
    rcases hmem2 with h | h | h
    · simp at h
    · exact virshStart_ne_listAll vm (by injection h)
    · simp at h
  · simp only [Bool.not_eq_true] at hrun
    have part2 : ∀ (tr : List Act),
        (env.instancesAt k).running.contains vm = true →
          Act.runCmd s!"virsh start {vm}" ∉ tr := by
      intro tr hc
      rw [hc] at hrun
      cases hrun
    by_cases hex : instanceExists vm (env.instancesAt k) = true
    · by_cases hcmd : env.cmdOk s!"virsh start {vm}" = true
      · simp only [hex, hrun, hcmd, if_true, Bool.false_eq_true, if_false]
        refine ⟨by simp, fun hc => hc.elim, fun _ => ⟨_, rfl⟩, ?_⟩
        intro s h hs
        exact waitForVmInit_valid env vm maxWait s (by injection h) hs
      · simp only [hex, hrun, hcmd, if_true, Bool.false_eq_true, if_false]
        refine ⟨by simp, fun hc => hc.elim, fun _ => ⟨_, rfl⟩, ?_⟩
        intro s h hs
        cases h
        exact absurd rfl hs
    · simp only [Bool.not_eq_true] at hex
      simp only [hex, Bool.false_eq_true, if_false]
      have hnmem : vm ∉ (env.instancesAt k).running := by simpa using hrun
      refine ⟨by simp [hnmem], fun hc => part2 _ hc, fun _ => ⟨_, rfl⟩, ?_⟩
      intro s h hs
      cases h
      exact absurd rfl hs

/-- C9 witness: on the demo hypervisor the already-running `vm1` yields
the boolean `True` with no start command, while starting the stopped
`vm2` yields its populated IPv4 address. -/
theorem c9_start_vm_witness :
    (startVm demoEnv 0 "vm1" 120).1 = PyRet.pyBool true ∧
    Act.runCmd "virsh start vm1" ∉ (startVm demoEnv 0 "vm1" 120).2.2 ∧
    (startVm demoEnv 0 "vm2" 120).1 = PyRet.pyStr "192.168.122.10" := by
  have h1 := (c9_start_vm demoEnv 0 "vm1" 120).1.mpr (by decide)
  have h2 := (c9_start_vm demoEnv 0 "vm1" 120).2.1 (by decide)
  refine ⟨h1, by simpa [toString] using h2, ?_⟩
  decide

/-- C10: when `remove_data_disk` detaches an existing non-boot disk but
the caller passed no `force` and declines the deletion prompt, the call
returns failure (logging the disk as not found) and the backing file is
untouched; and in full generality the call reports success only when
the backing file was actually removed. -/
theorem c10_remove_data_disk (env : Env) (k : Nat) (vm device loc : String)
    (hdev : device ≠ "sda")
    (hloc : diskLookup (env.disks vm) device = some loc)
    (hnot : (env.instancesAt k).running.contains vm = false)
    (hw : ∀ p, env.writeOk p = true)
    (hcmd : ∀ c, env.cmdOk c = true)
    (hrm : ∀ p, env.removeOk p = true)
    (hin : ∀ p, lowerStr (env.userInput p) ≠ "y")
    (hne : loc ≠ s!"{env.vmDir}/{vm}/remove-disk.xml") :
    ((removeDataDisk env k vm device false).1 = false ∧
      Act.logError s!"Disk {device} not found on {vm}" ∈ (removeDataDisk env k vm device false).2.2 ∧
      Act.fileRemove loc ∉ (removeDataDisk env k vm device false).2.2) ∧
    (∀ (envB : Env) (kB : Nat) (vmB deviceB : String) (force : Bool),
      (removeDataDisk envB kB vmB deviceB force).1 = true →
      ∃ l, diskLookup (envB.disks vmB) deviceB = some l ∧
        Act.fileRemove l ∈ (removeDataDisk envB kB vmB deviceB force).2.2) := by
  constructor
  · have hiny : (lowerStr (env.userInput s!"Delete disk {loc} from {vm}? [y/n]: ") == "y") = false := by
      rw [beq_eq_false_iff_ne]
      exact hin _
    simp only [removeDataDisk, getVmDisks, getInstances, hdev, hloc, hnot,
      removeDataDiskInner, createRemoveDiskFile, detachDevice, removeConfigFile, hw, hcmd, hrm,
      Bool.false_eq_true, if_false, if_true, Bool.false_or, hiny]
    refine ⟨trivial, by simp, by simp [hne]⟩
  · intro envB kB vmB deviceB force h
    simp only [removeDataDisk, getVmDisks, getInstances] at h ⊢
    by_cases hd : deviceB = "sda"
    · simp only [hd, if_true] at h
      cases h
    · simp only [hd, if_false] at h ⊢
      cases hll : diskLookup (envB.disks vmB) deviceB with
      | none =>
        rw [hll] at h
        simp at h
      | some l =>
        rw [hll] at h
        refine ⟨l, rfl, ?_⟩
        revert h
        by_cases hum : (if (envB.instancesAt kB).running.contains vmB
            then unmountSystemDiskInner envB vmB deviceB (envB.disks vmB)
            else (true, [])).1 = true
        · simp only [hum, if_true]
          by_cases hrm2 : (removeDataDiskInner envB vmB deviceB l (envB.instancesAt kB)).1 = true
          · simp only [hrm2, if_true]
            by_cases hforce : (force || (lowerStr (envB.userInput s!"Delete disk {l} from {vmB}? [y/n]: ") == "y")) = true
            · simp only [hforce, if_true]
              unfold deleteVmDisk
              by_cases hok : envB.removeOk l = true
              · simp only [hok, if_true]
                intro _
                simp
              · simp only [hok, Bool.false_eq_true, if_false]
                intro h
                cases h
            · simp only [hforce, Bool.false_eq_true, if_false]
              intro h
              cases h
          · simp only [hrm2, Bool.false_eq_true, if_false]
            intro h
            cases h
        · simp only [hum, Bool.false_eq_true, if_false]
          intro h
          cases h

/-- C10 witness: on the stopped `vm1`, removing `sdb` with the prompt
declined detaches but returns failure with the disk-not-found report. -/
theorem c10_remove_data_disk_witness :
    (removeDataDisk envStopped 0 "vm1" "sdb" false).1 = false ∧
    Act.logError "Disk sdb not found on vm1" ∈ (removeDataDisk envStopped 0 "vm1" "sdb" false).2.2 :=
  ⟨(c10_remove_data_disk envStopped 0 "vm1" "sdb" "/k2g/vms/vm1/data-ab.qcow2"
      (by decide) (by decide) (by decide) (fun _ => rfl) (fun _ => rfl) (fun _ => rfl)
      (fun _ => (by decide : lowerStr "n" ≠ "y")) (by decide)).1.1,
   by decide⟩

/-! ## Lemmas about the shutdown polling loop (C2) -/

theorem append_ne_append_of_get {p q : String} (i : Nat)
    (hip : i < p.data.length) (hiq : i < q.data.length)
    (hne : p.data.get ⟨i, hip⟩ ≠ q.data.get ⟨i, hiq⟩) (r s : String) :
    p ++ r ≠ q ++ s := by
  intro he
  apply hne
  have hd := congrArg String.data he
  rw [String.data_append, String.data_append] at hd
  have h1 : (p.data ++ r.data)[i]? = some (p.data.get ⟨i, hip⟩) := by
    rw [List.getElem?_append_left hip, List.getElem?_eq_getElem hip]
    simp [List.get_eq_getElem]
  have h2 : (q.data ++ s.data)[i]? = some (q.data.get ⟨i, hiq⟩) := by
    rw [List.getElem?_append_left hiq, List.getElem?_eq_getElem hiq]
    simp [List.get_eq_getElem]
  rw [hd, h2] at h1
  exact Option.some.inj h1.symm

theorem append_ne_lit_of_get {p q : String} (i : Nat)
    (hip : i < p.data.length) (hiq : i < q.data.length)
    (hne : p.data.get ⟨i, hip⟩ ≠ q.data.get ⟨i, hiq⟩) (r : String) :
    p ++ r ≠ q := by
  intro he
  apply hne
  have hd := congrArg String.data he
  rw [String.data_append] at hd
  have h1 : (p.data ++ r.data)[i]? = some (p.data.get ⟨i, hip⟩) := by
    rw [List.getElem?_append_left hip, List.getElem?_eq_getElem hip]
    simp [List.get_eq_getElem]
  rw [hd, List.getElem?_eq_getElem hiq] at h1
  rw [show (some (q.data[i]) : Option Char) = some (q.data.get ⟨i, hiq⟩) from by
    simp [List.get_eq_getElem]] at h1
  exact Option.some.inj h1.symm

theorem destroyAct_ne_dominfo (vm : String) : destroyAct vm ≠ dominfoAct vm := by
  unfold destroyAct dominfoAct
  intro h
  have hs : (s!"virsh destroy {vm}" : String) = s!"virsh dominfo {vm}" := by injection h
  have h1 : (s!"virsh destroy {vm}" : String) = "virsh destroy " ++ vm := by simp [toString]
  have h2 : (s!"virsh dominfo {vm}" : String) = "virsh dominfo " ++ vm := by simp [toString]
  rw [h1, h2] at hs
  exact append_ne_append_of_get 7 (by decide) (by decide) (by decide) vm vm hs

theorem destroyAct_ne_listAll (vm : String) : destroyAct vm ≠ Act.runCmd "virsh list --all" := by
  unfold destroyAct
  intro h
  have hs : (s!"virsh destroy {vm}" : String) = "virsh list --all" := by injection h
  have h1 : (s!"virsh destroy {vm}" : String) = "virsh destroy " ++ vm := by simp [toString]
  rw [h1] at hs
  exact append_ne_lit_of_get 6 (by decide) (by decide) (by decide) vm hs

theorem destroyAct_ne_shutdownCmd (vm : String) :
    destroyAct vm ≠ Act.runCmd s!"virsh shutdown {vm}" := by
  unfold destroyAct
  intro h
  have hs : (s!"virsh destroy {vm}" : String) = s!"virsh shutdown {vm}" := by injection h
  have h1 : (s!"virsh destroy {vm}" : String) = "virsh destroy " ++ vm := by simp [toString]
  have h2 : (s!"virsh shutdown {vm}" : String) = "virsh shutdown " ++ vm := by simp [toString]
  rw [h1, h2] at hs
  exact append_ne_append_of_get 6 (by decide) (by decide) (by decide) vm vm hs

theorem waitShutdownLoop_mem (stopped : Nat → Bool) (vm : String) :
    ∀ (fuel t : Nat), ∀ a ∈ (waitShutdownLoop stopped vm t fuel).2,
      a = dominfoAct vm ∨ a = Act.sleep 1 := by
  intro fuel
  induction fuel with
  | zero => intro t a ha; cases ha
  | succ n ih =>
    intro t a ha
    unfold waitShutdownLoop at ha
    by_cases hs : stopped t = true
    · simp only [hs, if_true] at ha
      rw [List.mem_singleton] at ha
      exact Or.inl ha
    · simp only [hs, Bool.false_eq_true, if_false] at ha
      rcases List.mem_cons.mp ha with h | ha
      · exact Or.inl h
      · rcases List.mem_cons.mp ha with h | ha
        · exact Or.inr h
        · exact ih (t + 1) a ha

theorem destroyAct_notin_loop (stopped : Nat → Bool) (vm : String) (fuel t : Nat) :
    destroyAct vm ∉ (waitShutdownLoop stopped vm t fuel).2 := by
  intro h
  rcases waitShutdownLoop_mem stopped vm fuel t _ h with h1 | h1
  · exact destroyAct_ne_dominfo vm h1
  · cases h1

theorem waitShutdownLoop_false_iff (stopped : Nat → Bool) (vm : String) :
    ∀ (fuel t : Nat),
      ((waitShutdownLoop stopped vm t fuel).1 = false ↔
        ∀ j < fuel, stopped (t + j) = false) := by
  intro fuel
  induction fuel with
  | zero =>
    intro t
    simp [waitShutdownLoop]
  | succ n ih =>
    intro t
    unfold waitShutdownLoop
    by_cases hs : stopped t = true
    · simp only [hs, if_true]
      constructor
      · intro h; cases h
      · intro h
        have h0 := h 0 (Nat.succ_pos n)
        rw [Nat.add_zero, hs] at h0
        cases h0
    · simp only [hs, Bool.false_eq_true, if_false]
      rw [ih (t + 1)]
      constructor
      · intro h j hj
        cases j with
        | zero =>
          rw [Nat.add_zero]
          exact Bool.not_eq_true _ ▸ (by simpa using hs)
        | succ m =>
          have e : t + 1 + m = t + (m + 1) := by omega
          have := h m (by omega)
          rw [e] at this
          exact this
      · intro h j hj
        have e : t + 1 + j = t + (j + 1) := by omega
        rw [e]
        exact h (j + 1) (by omega)

theorem waitShutdownLoop_false_trace (stopped : Nat → Bool) (vm : String) :
    ∀ (fuel t : Nat), (∀ j < fuel, stopped (t + j) = false) →
      waitShutdownLoop stopped vm t fuel =
        (false, (List.replicate fuel [dominfoAct vm, Act.sleep 1]).flatten) := by
  intro fuel
  induction fuel with
  | zero => intro t _; rfl
  | succ n ih =>
    intro t h
    have h0 : stopped t = false := by
      have := h 0 (Nat.succ_pos n)
      rwa [Nat.add_zero] at this
    unfold waitShutdownLoop
    rw [ih (t + 1) (fun j hj => by
      have e : t + 1 + j = t + (j + 1) := by omega
      rw [e]
      exact h (j + 1) (by omega))]
    simp [h0, List.replicate_succ]

theorem count_sleep_flatten (vm : String) (n : Nat) :
    ((List.replicate n [dominfoAct vm, Act.sleep 1]).flatten).count (Act.sleep 1) = n := by
  induction n with
  | zero => rfl
  | succ m ih =>
    rw [List.replicate_succ, List.flatten_cons, List.count_append, ih]
    simp only [List.count_cons, List.count_nil, dominfoAct]
    simp
    omega

theorem count_sleep_loop_le (stopped : Nat → Bool) (vm : String) :
    ∀ (fuel t : Nat), (waitShutdownLoop stopped vm t fuel).2.count (Act.sleep 1) ≤ fuel := by
  intro fuel
  induction fuel with
  | zero => intro t; simp [waitShutdownLoop]
  | succ n ih =>
    intro t
    unfold waitShutdownLoop
    by_cases hs : stopped t = true
    · simp [hs, List.count_cons, dominfoAct]
    · simp only [hs, Bool.false_eq_true, if_false]
      have := ih (t + 1)
      simp only [List.count_cons]
      simp [dominfoAct]
      omega

/-- C2: with the VM present and running and the graceful shutdown
command accepted, `shutdown_vm` escalates to `virsh destroy` exactly
when the VM has not reached the stopped state during `max_wait` seconds
of one-second polling: on timeout the single destroy is issued only
after `max_wait` one-second sleeps, the forced path then sleeps at most
10 more seconds and issues no further destroy; and if the VM stops at
some poll within the grace period, no destroy is ever issued. -/
theorem c2_shutdown_escalation (env : Env) (k : Nat) (vm : String) (maxWait : Nat)
    (hrun : (env.instancesAt k).running.contains vm = true)
    (hcmd : env.cmdOk s!"virsh shutdown {vm}" = true) :
    ((∀ t, t < maxWait → env.stoppedAt vm t = false) →
      ∃ A B, (shutdownVm env k vm maxWait).2.2 = A ++ destroyAct vm :: B ∧
        destroyAct vm ∉ A ∧ destroyAct vm ∉ B ∧
        A.count (Act.sleep 1) = maxWait ∧ B.count (Act.sleep 1) ≤ 10) ∧
    (∀ t, t < maxWait → env.stoppedAt vm t = true →
      destroyAct vm ∉ (shutdownVm env k vm maxWait).2.2) := by
  have hmem : vm ∈ (env.instancesAt k).running := by simpa using hrun
  have hex : instanceExists vm (env.instancesAt k) = true := by
    unfold instanceExists
    simp [hmem]
  constructor
  · intro hstop
    have hL := waitShutdownLoop_false_trace (env.stoppedAt vm) vm maxWait 0
      (fun j hj => by simpa using hstop j hj)
    have hJ := destroyAct_notin_loop (env.stoppedAt vm) vm maxWait 0
    rw [hL] at hJ
    simp only [shutdownVm, getInstances, hex, hrun, hcmd, if_true,
      waitForVmShutdownForce, hL, Bool.false_eq_true, if_false, forceShutdownVm]
    by_cases hfd : env.cmdOk s!"virsh destroy {vm}" = true
    · by_cases hinner : (waitShutdownLoop (env.stoppedAfterDestroyAt vm) vm 0 10).1 = true
      · simp only [hfd, hinner, if_true]
        refine ⟨Act.logInfo s!"Shutting down VM {vm}" :: Act.runCmd "virsh list --all"
            :: Act.runCmd s!"virsh shutdown {vm}"
            :: ((List.replicate maxWait [dominfoAct vm, Act.sleep 1]).flatten
              ++ [Act.logInfo s!"VM {vm} failed to shutdown after {maxWait} seconds. Force shutting down...",
                  Act.logInfo s!"Force shutting down VM {vm}"]),
          (waitShutdownLoop (env.stoppedAfterDestroyAt vm) vm 0 10).2, ?_, ?_, ?_, ?_, ?_⟩
        · simp [List.append_assoc]
        · intro hmemA
          simp only [List.mem_cons, List.mem_append, List.not_mem_nil, or_false] at hmemA
          rcases hmemA with h | h | h | h | h | h
          · simp [destroyAct] at h
          · exact destroyAct_ne_listAll vm h
          · exact destroyAct_ne_shutdownCmd vm h
          · exact hJ h
          · simp [destroyAct] at h
          · simp [destroyAct] at h
        · exact destroyAct_notin_loop _ vm 10 0
        · simp only [List.count_cons, List.count_append, count_sleep_flatten]
          simp [destroyAct, dominfoAct]
        · exact count_sleep_loop_le _ vm 10 0
      · simp only [hfd, hinner, Bool.false_eq_true, if_true, if_false]
        refine ⟨Act.logInfo s!"Shutting down VM {vm}" :: Act.runCmd "virsh list --all"
            :: Act.runCmd s!"virsh shutdown {vm}"
            :: ((List.replicate maxWait [dominfoAct vm, Act.sleep 1]).flatten
              ++ [Act.logInfo s!"VM {vm} failed to shutdown after {maxWait} seconds. Force shutting down...",
                  Act.logInfo s!"Force shutting down VM {vm}"]),
          (waitShutdownLoop (env.stoppedAfterDestroyAt vm) vm 0 10).2
            ++ [Act.logError s!"Failed to shutdown VM {vm} after 10 seconds"], ?_, ?_, ?_, ?_, ?_⟩
        · simp [List.append_assoc]
        · intro hmemA
          simp only [List.mem_cons, List.mem_append, List.not_mem_nil, or_false] at hmemA
          rcases hmemA with h | h | h | h | h | h
          · simp [destroyAct] at h
          · exact destroyAct_ne_listAll vm h
          · exact destroyAct_ne_shutdownCmd vm h
          · exact hJ h
          · simp [destroyAct] at h
          · simp [destroyAct] at h
        · intro hmemB
          rcases List.mem_append.mp hmemB with h | h
          · exact destroyAct_notin_loop _ vm 10 0 h
          · rw [List.mem_singleton] at h
            simp [destroyAct] at h
        · simp only [List.count_cons, List.count_append, count_sleep_flatten]
          simp [destroyAct, dominfoAct]
        · rw [List.count_append]
          have := count_sleep_loop_le (env.stoppedAfterDestroyAt vm) vm 10 0
          simp
          omega
    · simp only [hfd, Bool.false_eq_true, if_false]
      refine ⟨Act.logInfo s!"Shutting down VM {vm}" :: Act.runCmd "virsh list --all"
          :: Act.runCmd s!"virsh shutdown {vm}"
          :: ((List.replicate maxWait [dominfoAct vm, Act.sleep 1]).flatten
            ++ [Act.logInfo s!"VM {vm} failed to shutdown after {maxWait} seconds. Force shutting down...",
                Act.logInfo s!"Force shutting down VM {vm}"]),
        [Act.logError s!"Failed to force shutdown VM {vm}"], ?_, ?_, ?_, ?_, ?_⟩
      · simp [List.append_assoc]
      · intro hmemA
        simp only [List.mem_cons, List.mem_append, List.not_mem_nil, or_false] at hmemA
        rcases hmemA with h | h | h | h | h | h
        · simp [destroyAct] at h
        · exact destroyAct_ne_listAll vm h
        · exact destroyAct_ne_shutdownCmd vm h
        · exact hJ h
        · simp [destroyAct] at h
        · simp [destroyAct] at h
      · intro hmemB
        rw [List.mem_singleton] at hmemB
        simp [destroyAct] at hmemB
      · simp only [List.count_cons, List.count_append, count_sleep_flatten]
        simp [destroyAct, dominfoAct]
      · simp
  · intro t ht hstopped
    have hLtrue : (waitShutdownLoop (env.stoppedAt vm) vm 0 maxWait).1 = true := by
      by_contra hfalse
      rw [Bool.not_eq_true] at hfalse
      have h := (waitShutdownLoop_false_iff (env.stoppedAt vm) vm maxWait 0).mp hfalse t ht
      rw [Nat.zero_add, hstopped] at h
      cases h
    simp only [shutdownVm, getInstances, hex, hrun, hcmd, if_true,
      waitForVmShutdownForce, hLtrue, eq_self_iff_true, ite_true]
    intro hmemT
    simp only [List.mem_cons, List.mem_append, List.not_mem_nil, or_false] at hmemT
    have hsplit : destroyAct vm = Act.logInfo s!"Shutting down VM {vm}" ∨
        destroyAct vm = Act.runCmd "virsh list --all" ∨
        destroyAct vm = Act.runCmd s!"virsh shutdown {vm}" ∨
        destroyAct vm ∈ (waitShutdownLoop (env.stoppedAt vm) vm 0 maxWait).2 := by
      tauto
    rcases hsplit with h | h | h | h
    · simp [destroyAct] at h
    · exact destroyAct_ne_listAll vm h
    · exact destroyAct_ne_shutdownCmd vm h
    · exact destroyAct_notin_loop _ vm maxWait 0 h

/-- C2 witness: a VM that never reaches the stopped state within a
2-second grace period is destroyed exactly once, after the two sleeps. -/
theorem c2_shutdown_escalation_witness :
    ∃ A B, (shutdownVm demoEnv 0 "vm1" 2).2.2 = A ++ destroyAct "vm1" :: B ∧
      destroyAct "vm1" ∉ A ∧ destroyAct "vm1" ∉ B ∧
      A.count (Act.sleep 1) = 2 ∧ B.count (Act.sleep 1) ≤ 10 :=
  (c2_shutdown_escalation demoEnv 0 "vm1" 2 (by decide) rfl).1 (fun _ _ => rfl)

/-! ## Lemmas about the zone-operation poller (C3) -/

theorem waitZone_head_none (env : GcpEnv) (opName : String) (i fuel : Nat)
    (h : env.fetch opName i = none) (hf : 0 < fuel) :
    waitForZoneOperation env opName i fuel =
      some (false, [fetchAct opName, Act.logError s!"Failed to get operation {opName}"]) := by
  cases fuel with
  | zero => omega
  | succ f =>
    unfold waitForZoneOperation
    rw [h]

theorem waitZone_head_done (env : GcpEnv) (opName : String) (i fuel : Nat) (r : GcpOp)
    (h : env.fetch opName i = some r) (hd : r.statusDone = true) (hf : 0 < fuel) :
    waitForZoneOperation env opName i fuel =
      match r.error with
      | some e => some (false, [fetchAct opName,
          Act.logError s!"Operation {opName} finished with error: {e}"])
      | none => some (true, [fetchAct opName,
          Act.display s!"Operation {opName} completed successfully"]) := by
  cases fuel with
  | zero => omega
  | succ f =>
    unfold waitForZoneOperation
    rw [h]
    simp only [hd, if_true]

theorem waitZone_none_of_all_pending (env : GcpEnv) (opName : String) :
    ∀ (fuel i : Nat),
      (∀ j, j < fuel → ∃ r, env.fetch opName (i + j) = some r ∧ r.statusDone = false) →
      waitForZoneOperation env opName i fuel = none := by
  intro fuel
  induction fuel with
  | zero => intro i _; rfl
  | succ f ih =>
    intro i h
    obtain ⟨r0, hr0, hd0⟩ := h 0 (Nat.succ_pos f)
    rw [Nat.add_zero] at hr0
    unfold waitForZoneOperation
    rw [hr0]
    simp only [hd0, Bool.false_eq_true, if_false]
    rw [ih (i + 1) (fun j hj => by
      have e : i + 1 + j = i + (j + 1) := by omega
      rw [e]
      exact h (j + 1) (by omega))]

theorem waitZone_step (env : GcpEnv) (opName : String) (i f : Nat) (r : GcpOp)
    (hr : env.fetch opName i = some r) (hd : r.statusDone = false) :
    waitForZoneOperation env opName i (f + 1) =
      match waitForZoneOperation env opName (i + 1) f with
      | some p => some (p.1, fetchAct opName
          :: Act.display s!"Waiting for operation {opName} to complete..."
          :: Act.sleep 3 :: p.2)
      | none => none := by
  conv_lhs => unfold waitForZoneOperation
  rw [hr]
  simp [hd]

theorem waitZone_skip (env : GcpEnv) (opName : String) :
    ∀ (m i fuel : Nat),
      (∀ j, j < m → ∃ r, env.fetch opName (i + j) = some r ∧ r.statusDone = false) →
      m < fuel →
      ∃ tl, (∀ a ∈ tl, a.isBackendMutation = false) ∧ tl.count (Act.sleep 3) = m ∧
        waitForZoneOperation env opName i fuel =
          (waitForZoneOperation env opName (i + m) (fuel - m)).map (fun p => (p.1, tl ++ p.2)) := by
  intro m
  induction m with
  | zero =>
    intro i fuel _ _
    refine ⟨[], by simp, by simp, ?_⟩
    rw [Nat.add_zero, Nat.sub_zero]
    cases waitForZoneOperation env opName i fuel with
    | none => rfl
    | some p => rfl
  | succ n ih =>
    intro i fuel h hf
    obtain ⟨r0, hr0, hd0⟩ := h 0 (Nat.succ_pos n)
    rw [Nat.add_zero] at hr0
    cases fuel with
    | zero => omega
    | succ f =>
      obtain ⟨tl', hmut', hcnt', heq'⟩ := ih (i + 1) f (fun j hj => by
          have e : i + 1 + j = i + (j + 1) := by omega
          rw [e]
          exact h (j + 1) (by omega)) (by omega)
      refine ⟨fetchAct opName
          :: Act.display s!"Waiting for operation {opName} to complete..."
          :: Act.sleep 3 :: tl', ?_, ?_, ?_⟩
      · intro a ha
        rcases List.mem_cons.mp ha with rfl | ha
        · rfl
        · rcases List.mem_cons.mp ha with rfl | ha
          · rfl
          · rcases List.mem_cons.mp ha with rfl | ha
            · rfl
            · exact hmut' a ha
      · simp only [List.count_cons, hcnt']
        simp [fetchAct]
      · rw [waitZone_step env opName i f r0 hr0 hd0, heq']
        have e1 : i + 1 + n = i + (n + 1) := by omega
        have e2 : f - n = f + 1 - (n + 1) := by omega
        rw [e1, e2]
        cases waitForZoneOperation env opName (i + (n + 1)) (f + 1 - (n + 1)) with
        | none => rfl
        | some p => simp

/-- C3: the remote-operation poller. With the first `m` fetches pending
(not `DONE`): a failed fetch at attempt `m` yields a transport failure;
`DONE` with an error set yields an operation-error failure and the
poller never reports success at any fuel; `DONE` without error yields
success after exactly `m` fixed 3-second sleeps; and while every
observed status is pending the loop never terminates (no fuel bound
suffices); consequently `start_instance` reports failure whenever its
polled operation ends `DONE` with an error. -/
theorem c3_wait_operation (env : GcpEnv) (opName name : String) (m : Nat)
    (hpre : ∀ j, j < m → ∃ r, env.fetch opName j = some r ∧ r.statusDone = false) :
    (env.fetch opName m = none → ∀ fuel, m < fuel →
      ∃ tr, waitForZoneOperation env opName 0 fuel = some (false, tr) ∧
        Act.logError s!"Failed to get operation {opName}" ∈ tr) ∧
    (∀ r e, env.fetch opName m = some r → r.statusDone = true → r.error = some e →
      (∀ fuel, m < fuel →
        ∃ tr, waitForZoneOperation env opName 0 fuel = some (false, tr) ∧
          Act.logError s!"Operation {opName} finished with error: {e}" ∈ tr) ∧
      (∀ fuel, (waitForZoneOperation env opName 0 fuel).map Prod.fst ≠ some true)) ∧
    (∀ r, env.fetch opName m = some r → r.statusDone = true → r.error = none →
      ∀ fuel, m < fuel →
        ∃ tr, waitForZoneOperation env opName 0 fuel = some (true, tr) ∧
          tr.count (Act.sleep 3) = m) ∧
    (∀ fuel, fuel ≤ m → waitForZoneOperation env opName 0 fuel = none) ∧
    (∀ r e, env.fetch opName m = some r → r.statusDone = true → r.error = some e →
      env.clientOk = true → env.startOp name = some opName →
      ∀ fuel, m < fuel → (startInstance env name fuel).map Prod.fst = some false) := by
  have hskip : ∀ fuel, m < fuel →
      ∃ tl, (∀ a ∈ tl, a.isBackendMutation = false) ∧ tl.count (Act.sleep 3) = m ∧
        waitForZoneOperation env opName 0 fuel =
          (waitForZoneOperation env opName m (fuel - m)).map (fun p => (p.1, tl ++ p.2)) := by
    intro fuel hf
    have := waitZone_skip env opName m 0 fuel (fun j hj => by simpa using hpre j hj) hf
    simpa using this
  have hnone : ∀ fuel, fuel ≤ m → waitForZoneOperation env opName 0 fuel = none := by
    intro fuel hf
    exact waitZone_none_of_all_pending env opName fuel 0 (fun j hj => by
      simpa using hpre j (by omega))
  have hfail : ∀ r e, env.fetch opName m = some r → r.statusDone = true → r.error = some e →
      ∀ fuel, m < fuel →
        ∃ tr, waitForZoneOperation env opName 0 fuel = some (false, tr) ∧
          Act.logError s!"Operation {opName} finished with error: {e}" ∈ tr := by
    intro r e hr hd he fuel hf
    obtain ⟨tl, _, _, heq⟩ := hskip fuel hf
    rw [heq, waitZone_head_done env opName m (fuel - m) r hr hd (by omega), he]
    exact ⟨_, rfl, by simp⟩
  refine ⟨?_, ?_, ?_, hnone, ?_⟩
  · intro h fuel hf
    obtain ⟨tl, _, _, heq⟩ := hskip fuel hf
    rw [heq, waitZone_head_none env opName m (fuel - m) h (by omega)]
    exact ⟨_, rfl, by simp⟩
  · intro r e hr hd he
    refine ⟨hfail r e hr hd he, ?_⟩
    intro fuel
    by_cases hf : m < fuel
    · obtain ⟨tr, heq, _⟩ := hfail r e hr hd he fuel hf
      rw [heq]
      simp
    · rw [hnone fuel (by omega)]
      simp
  · intro r hr hd he fuel hf
    obtain ⟨tl, _, hcnt, heq⟩ := hskip fuel hf
    rw [heq, waitZone_head_done env opName m (fuel - m) r hr hd (by omega), he]
    refine ⟨_, rfl, ?_⟩
    rw [List.count_append, hcnt]
    simp [fetchAct]
  · intro r e hr hd he hclient hop fuel hf
    obtain ⟨tr, heq, _⟩ := hfail r e hr hd he fuel hf
    simp only [startInstance, hclient, hop, if_true, heq]
    simp

/-- C3 witness: a poll sequence that is pending once and then reaches
`DONE` with an error reports failure both from the poller and from
`start_instance`, and never success. -/
theorem c3_wait_operation_witness :
    (waitForZoneOperation gcpDemoEnv "op-1" 0 5).map Prod.fst = some false ∧
    (startInstance gcpDemoEnv "inst-1" 5).map Prod.fst = some false := by
  have h := c3_wait_operation gcpDemoEnv "op-1" "inst-1" 1
    (fun j hj => ⟨⟨false, none⟩, by
      have hj0 : j = 0 := by omega
      subst hj0
      exact ⟨rfl, rfl⟩⟩)
  obtain ⟨tr, heq, _⟩ := (h.2.1 ⟨true, some "quota"⟩ "quota" rfl rfl rfl).1 5 (by omega)
  refine ⟨by rw [heq]; rfl, ?_⟩
  exact h.2.2.2.2 ⟨true, some "quota"⟩ "quota" rfl rfl rfl rfl rfl 5 (by omega)

/-! ## Stage lemmas for the resize pipeline (C7) -/

theorem waitShutdownLoop_stop_head (stopped : Nat → Bool) (vm : String) (t fuel : Nat)
    (h : stopped t = true) (hf : 0 < fuel) :
    waitShutdownLoop stopped vm t fuel = (true, [dominfoAct vm]) := by
  cases fuel with
  | zero => omega
  | succ f =>
    unfold waitShutdownLoop
    rw [h]
    simp

/-- A running VM that reports stopped at the first poll shuts down with
a short, destroy-free trace. -/
theorem shutdownVm_quick (env : Env) (k : Nat) (vm : String) (w : Nat)
    (hrun : (env.instancesAt k).running.contains vm = true)
    (hcmd : env.cmdOk s!"virsh shutdown {vm}" = true)
    (hstop : env.stoppedAt vm 0 = true) (hw : 0 < w) :
    shutdownVm env k vm w =
      (true, k + 1, [Act.logInfo s!"Shutting down VM {vm}", Act.runCmd "virsh list --all",
        Act.runCmd s!"virsh shutdown {vm}", dominfoAct vm]) := by
  have hmem : vm ∈ (env.instancesAt k).running := by simpa using hrun
  have hex : instanceExists vm (env.instancesAt k) = true := by
    unfold instanceExists
    simp [hmem]
  simp only [shutdownVm, getInstances, hex, hrun, hcmd, if_true, waitForVmShutdownForce,
    waitShutdownLoop_stop_head (env.stoppedAt vm) vm 0 w hstop hw, eq_self_iff_true, ite_true]
  rfl

theorem waitInitLoop_hit (env : Env) (vm : String) (i fuel : Nat)
    (hne : (env.ipInitAt vm i).isEmpty = false)
    (h4 : env.isIPv4 (env.ipInitAt vm i) = true) (hf : 0 < fuel) :
    waitInitLoop env vm i fuel =
      (env.ipInitAt vm i, [Act.runCmd s!"virsh guestinfo {vm}",
        Act.display s!"VM {vm} is up. IP: {env.ipInitAt vm i}"]) := by
  cases fuel with
  | zero => omega
  | succ f =>
    unfold waitInitLoop displayVmIsUp
    simp [hne, h4]

/-- A stopped VM whose IP is populated (and valid) at the first init
poll starts successfully and returns that IP. -/
theorem startVm_success (env : Env) (k : Nat) (vm : String)
    (hex : instanceExists vm (env.instancesAt k) = true)
    (hrun : (env.instancesAt k).running.contains vm = false)
    (hcmd : env.cmdOk s!"virsh start {vm}" = true)
    (hne : (env.ipInitAt vm 0).isEmpty = false)
    (h4 : env.isIPv4 (env.ipInitAt vm 0) = true) :
    startVm env k vm 120 =
      (PyRet.pyStr (env.ipInitAt vm 0), k + 1,
        [Act.logInfo s!"Starting VM {vm}", Act.runCmd "virsh list --all",
         Act.runCmd s!"virsh start {vm}", Act.runCmd s!"virsh guestinfo {vm}",
         Act.display s!"VM {vm} is up. IP: {env.ipInitAt vm 0}"]) := by
  simp only [startVm, getInstances, hex, hrun, hcmd, if_true, Bool.false_eq_true, if_false,
    waitForVmInit, waitInitLoop_hit env vm 0 ((120 + 4) / 5) hne h4 (by omega), hne]
  rfl

/-- C7: `increase_disk_size` on an attached disk, with the running VM
shut down under `force=true`, resizes the backing file by the converted
delta, restarts the VM, and invokes the `resize_disk.yml` growth step
with the device name suffixed `-part1` for every target except `sda`,
which is passed unsuffixed. -/
theorem c7_increase_disk_size (env : Env) (k : Nat) (vm device size loc : String)
    (hloc : diskLookup (env.disks vm) device = some loc)
    (hrun0 : (env.instancesAt k).running.contains vm = true)
    (hrun1 : (env.instancesAt (k + 1)).running.contains vm = true)
    (hstop : env.stoppedAt vm 0 = true)
    (hex2 : instanceExists vm (env.instancesAt (k + 2)) = true)
    (hrun2 : (env.instancesAt (k + 2)).running.contains vm = false)
    (hsz : convertSizeToBytes size ≠ 0)
    (hcmd : ∀ c, env.cmdOk c = true)
    (hipE : (env.ipInitAt vm 0).isEmpty = false)
    (hip4 : env.isIPv4 (env.ipInitAt vm 0) = true)
    (hans : ∀ ip vmn pb vars, env.ansibleOk ip vmn pb vars = true) :
    (increaseDiskSize env k vm device size true).1 = true ∧
    Act.runCmd s!"qemu-img resize {loc} +{convertSizeToBytes size}"
      ∈ (increaseDiskSize env k vm device size true).2.2 ∧
    Act.runCmd s!"virsh start {vm}" ∈ (increaseDiskSize env k vm device size true).2.2 ∧
    (device ≠ "sda" →
      Act.ansible (env.ipInitAt vm 0) vm "resize_disk.yml"
        [("device_name", s!"{vm}-{fileBase loc}-part1")]
        ∈ (increaseDiskSize env k vm device size true).2.2) ∧
    (device = "sda" →
      Act.ansible (env.ipInitAt vm 0) vm "resize_disk.yml"
        [("device_name", s!"{vm}-{fileBase loc}")]
        ∈ (increaseDiskSize env k vm device size true).2.2) := by
  have hshut := shutdownVm_quick env (k + 1) vm 60 hrun1 (hcmd _) hstop (by omega)
  have hstart := startVm_success env (k + 2) vm hex2 hrun2 (hcmd _) hipE hip4
  simp only [increaseDiskSize, getVmDisks, hloc, increaseDiskSizeInner, validateDiskChange,
    getInstances, hrun0, Bool.true_or, if_true, hshut, hstart, increaseDiskSize,
    runAnsiblePlaybook, hans, hcmd, hsz, ne_eq, not_false_eq_true, and_self, ite_true,
    PyRet.truthy, hipE, Bool.not_false, PyRet.asStr]
  refine ⟨trivial, by simp, by simp, ?_, ?_⟩
  · intro hdev
    simp [hdev, toString]
  · intro hdev
    simp [hdev, toString]

/-- C7 witness: `increase_disk_size("vm1", "sdb", "+5G", force=true)` on
the phased environment resizes the backing file by 5 GiB, restarts the
VM and grows `vm1-data-ab-part1`. -/
theorem c7_increase_disk_size_witness :
    (increaseDiskSize envPhased 0 "vm1" "sdb" "+5G" true).1 = true ∧
    Act.runCmd "qemu-img resize /k2g/vms/vm1/data-ab.qcow2 +5368709120"
      ∈ (increaseDiskSize envPhased 0 "vm1" "sdb" "+5G" true).2.2 ∧
    Act.runCmd "virsh start vm1" ∈ (increaseDiskSize envPhased 0 "vm1" "sdb" "+5G" true).2.2 ∧
    Act.ansible "192.168.122.10" "vm1" "resize_disk.yml" [("device_name", "vm1-data-ab-part1")]
      ∈ (increaseDiskSize envPhased 0 "vm1" "sdb" "+5G" true).2.2 := by
  have h := c7_increase_disk_size envPhased 0 "vm1" "sdb" "+5G" "/k2g/vms/vm1/data-ab.qcow2"
    (by decide) (by decide) (by decide) rfl (by decide) (by decide) (by decide)
    (fun _ => rfl) rfl (by decide) (fun _ _ _ _ => rfl)
  exact ⟨h.1, by decide, by decide, h.2.2.2.1 (by decide)⟩

/-- C1 counterexample: with `ghost` absent from every inventory listing,
`delete_vm --force` still removes the VM directory and reports success,
and `create_data_disk` issues the `qemu-img create` command — so "every
lifecycle and resource operation returns NotFound and performs no
backend mutation" is false as stated. -/
theorem c1_absent_vm_counterexample :
    instanceExists "ghost" (emptyEnv.instancesAt 0) = false ∧
    (deleteVm emptyEnv 0 "ghost" true).1 = true ∧
    Act.runCmd "rm -rf /k2g/vms/ghost" ∈ (deleteVm emptyEnv 0 "ghost" true).2.2 ∧
    Act.runCmd "qemu-img create -f qcow2 /k2g/vms/ghost/d1.qcow2 1073741824"
      ∈ (createDataDisk emptyEnv 0 "ghost" "1G" "d1" "ext4" "default").2.2 :=
  ⟨by decide, by decide, by decide, by decide⟩

/-- C1 (amended): for a VM name absent from the inventory, the
operations that gate on existence — shutdown, start, reboot, hard
reset, network-interface add/remove — fail with the does-not-exist
report having issued only the read-only inventory listing, and the
disk-keyed operations — data-disk remove, mount, unmount, resize — fail
with a not-found refusal after only read-only queries; `delete_vm` and
`create_data_disk` are exceptions (see the counterexample): the former
deletes the VM directory, the latter issues the disk-creation command
without any existence check. -/
theorem c1_absent_vm_no_mutation (env : Env) (vm : String)
    (hex : ∀ j, instanceExists vm (env.instancesAt j) = false)
    (hdisks : env.disks vm = []) :
    (∀ k w, shutdownVm env k vm w =
      (false, k + 1, [Act.logInfo s!"Shutting down VM {vm}", Act.runCmd "virsh list --all",
        Act.logError s!"VM {vm} does not exist"])) ∧
    (∀ k w, startVm env k vm w =
      (PyRet.pyStr "", k + 1, [Act.logInfo s!"Starting VM {vm}", Act.runCmd "virsh list --all",
        Act.logError s!"VM {vm} does not exist"])) ∧
    (∀ k, hardResetVm env k vm =
      (PyRet.pyBool false, k + 1, [Act.logInfo s!"Hard resetting VM {vm}",
        Act.runCmd "virsh list --all", Act.logError s!"VM {vm} does not exist"])) ∧
    (∀ k, rebootVm env k vm =
      (PyRet.pyBool false, k + 1, [Act.logInfo s!"Rebooting VM {vm}",
        Act.runCmd "virsh list --all", Act.logError s!"VM {vm} does not exist"])) ∧
    (∀ k, addNetworkInterface env k vm =
      (false, k + 1, [Act.runCmd "virsh list --all", Act.logError s!"VM {vm} does not exist"])) ∧
    (∀ k mac, removeNetworkInterface env k vm mac =
      (false, k + 1, [Act.runCmd "virsh list --all", Act.logError s!"VM {vm} does not exist"])) ∧
    (∀ k device force, (removeDataDisk env k vm device force).1 = false ∧
      noMutation (removeDataDisk env k vm device force).2.2) ∧
    (∀ k device mnt, (mountSystemDisk env k vm device mnt).1 = false ∧
      noMutation (mountSystemDisk env k vm device mnt).2.2) ∧
    (∀ k device, (unmountSystemDisk env k vm device).1 = false ∧
      noMutation (unmountSystemDisk env k vm device).2.2) ∧
    (∀ k device size force, (increaseDiskSize env k vm device size force).1 = false ∧
      noMutation (increaseDiskSize env k vm device size force).2.2) := by
  have hreads : noMutation [Act.runCmd s!"virsh domblklist {vm}",
      Act.logError s!"Disk dev not found on {vm}"] := by
    intro a ha
    rcases List.mem_cons.mp ha with rfl | ha
    · exact domblklist_readonly vm
    · rcases List.mem_cons.mp ha with rfl | ha
      · rfl
      · cases ha
  refine ⟨?_, ?_, ?_, ?_, ?_, ?_, ?_, ?_, ?_, ?_⟩
  · intro k w
    simp only [shutdownVm, getInstances, hex k, Bool.false_eq_true, if_false]
    rfl
  · intro k w
    simp only [startVm, getInstances, hex k, Bool.false_eq_true, if_false]
    rfl
  · intro k
    simp only [hardResetVm, getInstances, hex k, Bool.false_eq_true, if_false]
    rfl
  · intro k
    simp only [rebootVm, getInstances, hex k, Bool.false_eq_true, if_false]
    rfl
  · intro k
    simp only [addNetworkInterface, getInstances, hex k, Bool.false_eq_true, if_false]
    rfl
  · intro k mac
    simp only [removeNetworkInterface, getInstances, hex k, Bool.false_eq_true, if_false]
    rfl
  · intro k device force
    by_cases hd : device = "sda"
    · subst hd
      simp only [removeDataDisk, if_true]
      exact ⟨trivial, by intro a ha; rw [List.mem_singleton] at ha; subst ha; rfl⟩
    · simp only [removeDataDisk, hd, if_false, getVmDisks, hdisks, List.map_nil, diskLookup,
        List.filter_nil]
      refine ⟨trivial, ?_⟩
      intro a ha
      rcases List.mem_cons.mp ha with rfl | ha
      · exact domblklist_readonly vm
      · rcases List.mem_cons.mp ha with rfl | ha
        · rfl
        · cases ha
  · intro k device mnt
    by_cases hd : device = "sda"
    · subst hd
      simp only [mountSystemDisk, if_true]
      exact ⟨trivial, by intro a ha; rw [List.mem_singleton] at ha; subst ha; rfl⟩
    · simp only [mountSystemDisk, hd, if_false, getVmDisks, hdisks, List.map_nil, diskLookup,
        List.filter_nil]
      refine ⟨trivial, ?_⟩
      intro a ha
      rcases List.mem_cons.mp ha with rfl | ha
      · exact domblklist_readonly vm
      · rcases List.mem_cons.mp ha with rfl | ha
        · rfl
        · cases ha
  · intro k device
    by_cases hd : device = "sda"
    · subst hd
      simp only [unmountSystemDisk, if_true]
      exact ⟨trivial, by intro a ha; rw [List.mem_singleton] at ha; subst ha; rfl⟩
    · simp only [unmountSystemDisk, hd, if_false, getVmDisks, hdisks, List.map_nil, diskLookup,
        List.filter_nil]
      refine ⟨trivial, ?_⟩
      intro a ha
      rcases List.mem_cons.mp ha with rfl | ha
      · exact domblklist_readonly vm
      · rcases List.mem_cons.mp ha with rfl | ha
        · rfl
        · cases ha
  · intro k device size force
    simp only [increaseDiskSize, getVmDisks, hdisks, List.map_nil, diskLookup, List.filter_nil]
    refine ⟨trivial, ?_⟩
    intro a ha
    rcases List.mem_cons.mp ha with rfl | ha
    · exact domblklist_readonly vm
    · rcases List.mem_cons.mp ha with rfl | ha
      · rfl
      · cases ha

/-- C1 witness: the absent `ghost` gets the does-not-exist failure from
`shutdown_vm` with only the inventory listing issued, and a disk removal
on it fails without mutation. -/
theorem c1_absent_vm_no_mutation_witness :
    shutdownVm emptyEnv 0 "ghost" 60 =
      (false, 1, [Act.logInfo "Shutting down VM ghost", Act.runCmd "virsh list --all",
        Act.logError "VM ghost does not exist"]) ∧
    (removeDataDisk emptyEnv 0 "ghost" "sdb" false).1 = false := by
  have h := c1_absent_vm_no_mutation emptyEnv "ghost" (fun _ => rfl) (by decide)
  exact ⟨h.1 0 60, (h.2.2.2.2.2.2.1 0 "sdb" false).1⟩

end K2G

